import Mathlib

/-! VectorFury: the simulation core of `script.js`.

A shallow embedding of the game logic of `src/script.js` (lines 52-134): the four
object pools, `resetGame`, `fireProjectile`, `enemyFire`, `spawnEnemy`,
`spawnAsteroid`, `takeDamage`, `endGame` and the per-frame function `animate`.

Modelling conventions.

* JavaScript numbers that hold coordinates, speeds and timers are exact rationals
  (`ℚ`); `score` and `playerLives` are integers.
* `a.distanceTo(b) < t` of THREE.js is `sqrt(distanceToSquared) < t`; on exact
  numbers this is `0 < t` together with `distanceToSquared < t * t`, which is how
  `distanceLt` decides it.
* `Math.random()` is the stream `Env.random`, read at index `Game.randomCalls`,
  which counts the draws made so far.  `Vector3.normalize` needs a square root and
  is the parameter `Env.normalize`.  `Date.now()` is the argument `now` and
  `clock.getDelta()` the argument `delta`.
* A mesh carries its `userData` fields from the start (the zero vector / zero until
  a spawn or fire sets them); the code only reads them on active meshes.
* HUD text is kept as the number it shows (`scoreEl`, `livesEl`, `finalScoreEl`).
  Audio, CSS classes, the mouse cursor and the `setTimeout` effects (the shake and
  flash of `takeDamage`, the switching off of `muzzleFlash`) are not state of the
  simulation and are left out.
* `Array.forEach` with a callback that mutates the element and the surrounding
  globals is `forEach`, which threads the globals through the callback, in array
  order.
-/

namespace VectorFury

/-! ## Data model -/

/-- THREE.Vector3 (also used for THREE.Euler angles). -/
structure Vector3 where
  x : ℚ
  y : ℚ
  z : ℚ
deriving DecidableEq

/-- THREE.Vector2. -/
structure Vector2 where
  x : ℚ
  y : ℚ
deriving DecidableEq

/-- The `userData` of a mesh in `projectilePool` / `enemyProjectilePool`. -/
structure ProjectileData where
  velocity : Vector3
deriving DecidableEq

/-- A mesh of `projectilePool` or `enemyProjectilePool`. -/
structure Projectile where
  isActive : Bool
  visible : Bool
  position : Vector3
  rotation : Vector3
  userData : ProjectileData
deriving DecidableEq

/-- The `userData` of a mesh in `enemyPool`. -/
structure EnemyData where
  speed : ℚ
  fireTimer : ℚ
deriving DecidableEq

/-- A mesh of `enemyPool`. -/
structure Enemy where
  isActive : Bool
  visible : Bool
  position : Vector3
  rotation : Vector3
  userData : EnemyData
deriving DecidableEq

/-- The `userData` of a mesh in `asteroidPool`. -/
structure AsteroidData where
  speed : ℚ
  rotation : Vector3
deriving DecidableEq

/-- A mesh of `asteroidPool`. -/
structure Asteroid where
  isActive : Bool
  visible : Bool
  position : Vector3
  rotation : Vector3
  scale : Vector3
  userData : AsteroidData
deriving DecidableEq

/-- The eight entries of `keyboard` that `animate` reads. -/
structure Keyboard where
  arrowup : Bool
  w : Bool
  arrowdown : Bool
  s : Bool
  arrowleft : Bool
  a : Bool
  arrowright : Bool
  d : Bool
deriving DecidableEq

/-- Position and rotation of the `playerShip` group. -/
structure Ship where
  position : Vector3
  rotation : Vector3
deriving DecidableEq

/-- The global variables of `script.js` that the game logic reads or writes. -/
structure Game where
  score : Int
  playerLives : Int
  isGameOver : Bool
  gameStartTime : ℚ
  controlsEnabled : Bool
  enemySpawnTimer : ℚ
  asteroidSpawnTimer : ℚ
  mouse : Vector2
  keyboard : Keyboard
  playerTargetPosition : Vector3
  playerShip : Ship
  crosshair : Vector3
  camera : Vector3
  starfield : Vector3
  muzzleFlash : Bool
  projectilePool : List Projectile
  enemyProjectilePool : List Projectile
  enemyPool : List Enemy
  asteroidPool : List Asteroid
  scoreEl : Int
  livesEl : Int
  finalScoreEl : Int
  menuHidden : Bool
  hudOpacity : ℚ
  randomCalls : Nat
deriving DecidableEq

/-- What `animate` takes from outside the program: the `Math.random` stream and
`Vector3.normalize`. -/
structure Env where
  random : Nat → ℚ
  normalize : Vector3 → Vector3

/-! ## THREE.js helpers -/

/-- Vector3.distanceToSquared. -/
def distanceToSquared (a b : Vector3) : ℚ :=
  (a.x - b.x) * (a.x - b.x) + (a.y - b.y) * (a.y - b.y) + (a.z - b.z) * (a.z - b.z)

/-- The test `a.distanceTo(b) < t`. -/
def distanceLt (a b : Vector3) (t : ℚ) : Bool :=
  decide (0 < t) && decide (distanceToSquared a b < t * t)

/-- THREE.MathUtils.clamp. -/
def clamp (value lo hi : ℚ) : ℚ := max lo (min hi value)

/-- Vector3.lerp. -/
def lerp (v target : Vector3) (alpha : ℚ) : Vector3 :=
  ⟨v.x + (target.x - v.x) * alpha, v.y + (target.y - v.y) * alpha,
    v.z + (target.z - v.z) * alpha⟩

/-- Vector3.subVectors. -/
def subVectors (a b : Vector3) : Vector3 := ⟨a.x - b.x, a.y - b.y, a.z - b.z⟩

/-- Vector3.multiplyScalar. -/
def multiplyScalar (v : Vector3) (k : ℚ) : Vector3 := ⟨v.x * k, v.y * k, v.z * k⟩

/-- Vector3.addScaledVector. -/
def addScaledVector (p v : Vector3) (k : ℚ) : Vector3 :=
  ⟨p.x + v.x * k, p.y + v.y * k, p.z + v.z * k⟩

/-- One call of `Math.random()`: the next value of the stream, and the state with
the draw counted. -/
def random (env : Env) (g : Game) : ℚ × Game :=
  (env.random g.randomCalls, { g with randomCalls := g.randomCalls + 1 })

/-- The loop `arr.forEach(x => ...)` for a callback that updates the element `x`
and the state `σ` around it. -/
def forEach {α σ : Type} (f : α → σ → α × σ) : List α → σ → List α × σ
  | [], s => ([], s)
  | x :: xs, s =>
    let r := f x s
    let rest := forEach f xs r.2
    (r.1 :: rest.1, rest.2)

/-- The statement `const x = arr.find(pred); if (x) { ...mutate x... }` on a pool:
the first element satisfying `pred` is replaced by `f` of it. -/
def updateFirst {α : Type} (pred : α → Bool) (f : α → α) : List α → List α
  | [] => []
  | x :: xs => if pred x then f x :: xs else x :: updateFirst pred f xs

/-- The number of active slots of a pool of projectiles. -/
def activeCount (pool : List Projectile) : Nat := pool.countP (fun p => p.isActive)

/-! ## Pools at start-up (lines 52-65) -/

def POOL_SIZE : Nat := 50

def PLAYER_SPEED : ℚ := 2

def PLAYER_X_RANGE : ℚ := 60

def PLAYER_Y_RANGE : ℚ := 30

/-- A fresh `THREE.Mesh`: at the origin, unrotated, unit scale, visible, and marked
inactive by the start-up loop. -/
def newProjectile : Projectile :=
  { isActive := false, visible := true, position := ⟨0, 0, 0⟩, rotation := ⟨0, 0, 0⟩,
    userData := ⟨⟨0, 0, 0⟩⟩ }

def newEnemy : Enemy :=
  { isActive := false, visible := true, position := ⟨0, 0, 0⟩, rotation := ⟨0, 0, 0⟩,
    userData := ⟨0, 0⟩ }

def newAsteroid : Asteroid :=
  { isActive := false, visible := true, position := ⟨0, 0, 0⟩, rotation := ⟨0, 0, 0⟩,
    scale := ⟨1, 1, 1⟩, userData := ⟨0, ⟨0, 0, 0⟩⟩ }

/-- The globals after the script has loaded and before the first `resetGame`
(`score`, `playerLives`, `isGameOver` and `gameStartTime` are still unset there, and
the HUD fields come from the page; they are given placeholder values.
`controlsEnabled` is false, the timers are 0, and every mesh is inactive). -/
def initialGame : Game :=
  { score := 0, playerLives := 0, isGameOver := false, gameStartTime := 0,
    controlsEnabled := false, enemySpawnTimer := 0, asteroidSpawnTimer := 0,
    mouse := ⟨0, 0⟩,
    keyboard := ⟨false, false, false, false, false, false, false, false⟩,
    playerTargetPosition := ⟨0, 0, 0⟩,
    playerShip := ⟨⟨0, 0, 0⟩, ⟨0, 0, 0⟩⟩,
    crosshair := ⟨0, 0, 0⟩, camera := ⟨0, 0, 0⟩, starfield := ⟨0, 0, 0⟩,
    muzzleFlash := false,
    projectilePool := List.replicate POOL_SIZE newProjectile,
    enemyProjectilePool := List.replicate POOL_SIZE newProjectile,
    enemyPool := List.replicate POOL_SIZE newEnemy,
    asteroidPool := List.replicate 100 newAsteroid,
    scoreEl := 0, livesEl := 3, finalScoreEl := 0, menuHidden := false,
    hudOpacity := 0, randomCalls := 0 }

/-! ## Game logic (lines 75-81) -/

/-- `resetGame` (line 75); `now` is the value of `Date.now()`. -/
def resetGame (now : ℚ) (g : Game) : Game :=
  { g with
    score := 0
    playerLives := 3
    isGameOver := false
    gameStartTime := now
    scoreEl := 0
    livesEl := 3
    menuHidden := true
    hudOpacity := 1
    projectilePool := g.projectilePool.map (fun o => { o with isActive := false, visible := false })
    enemyProjectilePool :=
      g.enemyProjectilePool.map (fun o => { o with isActive := false, visible := false })
    enemyPool := g.enemyPool.map (fun o => { o with isActive := false, visible := false })
    asteroidPool := g.asteroidPool.map (fun o => { o with isActive := false, visible := false })
    camera := ⟨0, 5, 50⟩
    playerShip := { g.playerShip with position := ⟨0, 0, 0⟩ }
    playerTargetPosition := ⟨0, 0, 0⟩
    controlsEnabled := true }

/-- What `fireProjectile` does to the slot it found. -/
def launch (ship : Vector3) (p : Projectile) : Projectile :=
  { p with
    isActive := true
    visible := true
    position := ⟨ship.x, ship.y, ship.z - 3⟩
    userData := ⟨⟨0, 0, -1200⟩⟩ }

/-- `fireProjectile` (line 76). -/
def fireProjectile (g : Game) : Game :=
  if g.projectilePool.any (fun proj => !proj.isActive) then
    { g with
      projectilePool :=
        updateFirst (fun proj => !proj.isActive) (launch g.playerShip.position) g.projectilePool
      muzzleFlash := true }
  else g

/-- What `enemyFire` does to the slot it found. -/
def launchAt (env : Env) (ship from_ : Vector3) (p : Projectile) : Projectile :=
  { p with
    isActive := true
    visible := true
    position := from_
    userData := ⟨multiplyScalar (env.normalize (subVectors ship from_)) 300⟩ }

/-- `enemyFire` (line 77). -/
def enemyFire (env : Env) (enemy : Enemy) (g : Game) : Game :=
  { g with
    enemyProjectilePool :=
      updateFirst (fun proj => !proj.isActive)
        (launchAt env g.playerShip.position enemy.position) g.enemyProjectilePool }

/-- What `spawnEnemy` does to the slot it found, given its four random draws. -/
def initEnemy (r0 r1 r2 r3 : ℚ) (e : Enemy) : Enemy :=
  { e with
    isActive := true
    visible := true
    position := ⟨(r0 - 0.5) * 150, (r1 - 0.5) * 75 + 5, -800⟩
    userData := ⟨r2 * 100 + 180, r3 * 2 + 1⟩ }

/-- `spawnEnemy` (line 78). -/
def spawnEnemy (env : Env) (g : Game) : Game :=
  if g.enemyPool.any (fun en => !en.isActive) then
    let n := g.randomCalls
    { g with
      enemyPool :=
        updateFirst (fun en => !en.isActive)
          (initEnemy (env.random n) (env.random (n + 1)) (env.random (n + 2))
            (env.random (n + 3))) g.enemyPool
      randomCalls := n + 4 }
  else g

/-- What `spawnAsteroid` does to the slot it found, given its seven random draws. -/
def initAsteroid (env : Env) (r0 r1 r2 r3 r4 r5 r6 : ℚ) (a : Asteroid) : Asteroid :=
  { a with
    isActive := true
    visible := true
    position := ⟨(r0 - 0.5) * (PLAYER_X_RANGE * 2.5), (r1 - 0.5) * (PLAYER_Y_RANGE * 2) + 5, -800⟩
    scale := ⟨r2 * 6 + 1.5, r2 * 6 + 1.5, r2 * 6 + 1.5⟩
    userData := ⟨r3 * 50 + 80, env.normalize ⟨r4 - 0.5, r5 - 0.5, r6 - 0.5⟩⟩ }

/-- `spawnAsteroid` (line 79). -/
def spawnAsteroid (env : Env) (g : Game) : Game :=
  if g.asteroidPool.any (fun ast => !ast.isActive) then
    let n := g.randomCalls
    { g with
      asteroidPool :=
        updateFirst (fun ast => !ast.isActive)
          (initAsteroid env (env.random n) (env.random (n + 1)) (env.random (n + 2))
            (env.random (n + 3)) (env.random (n + 4)) (env.random (n + 5))
            (env.random (n + 6))) g.asteroidPool
      randomCalls := n + 7 }
  else g

/-- `endGame` (line 81). -/
def endGame (g : Game) : Game :=
  if g.isGameOver then g
  else
    { g with
      isGameOver := true
      controlsEnabled := false
      menuHidden := false
      hudOpacity := 0
      finalScoreEl := g.score }

/-- `takeDamage` (line 80). -/
def takeDamage (amount : Int) (g : Game) : Game :=
  if g.isGameOver then g
  else
    let g1 := { g with playerLives := g.playerLives - amount }
    let g2 := { g1 with livesEl := max 0 g1.playerLives }
    if g2.playerLives ≤ 0 then endGame g2 else g2

/-! ## The frame function `animate` (lines 84-126) -/

/-- Marks a projectile inactive and invisible. -/
def Projectile.release (p : Projectile) : Projectile :=
  { p with isActive := false, visible := false }

/-- Marks an enemy inactive and invisible. -/
def Enemy.release (e : Enemy) : Enemy :=
  { e with isActive := false, visible := false }

/-- Marks an asteroid inactive and invisible. -/
def Asteroid.release (a : Asteroid) : Asteroid :=
  { a with isActive := false, visible := false }

/-- The enemy spawn interval `Math.max(0.2, 1.2 - Math.min(gameTime / 60, 1.0))`
of line 118. -/
def spawnInterval (gameTime : ℚ) : ℚ :=
  let spawnRate := 1.2 - min (gameTime / 60) 1.0
  max 0.2 spawnRate

/-- Lines 94-113: keyboard and pointer drive `mouse`, which drives the ship. -/
def updateControls (delta : ℚ) (g : Game) : Game :=
  let k := g.keyboard
  let my0 := g.mouse.y
  let my1 := if k.arrowup || k.w then my0 - PLAYER_SPEED * delta else my0
  let my2 := if k.arrowdown || k.s then my1 + PLAYER_SPEED * delta else my1
  let mx0 := g.mouse.x
  let mx1 := if k.arrowleft || k.a then mx0 - PLAYER_SPEED * delta else mx0
  let mx2 := if k.arrowright || k.d then mx1 + PLAYER_SPEED * delta else mx1
  let mx := clamp mx2 (-1) 1
  let my := clamp my2 (-1) 1
  let targetX := mx * PLAYER_X_RANGE
  let targetY := -my * PLAYER_Y_RANGE + 5
  let target := lerp g.playerTargetPosition ⟨targetX, targetY, 0⟩ 0.1
  { g with
    mouse := ⟨mx, my⟩
    playerTargetPosition := target
    playerShip :=
      { position := target
        rotation :=
          ⟨(targetY - target.y) * 0.02, g.playerShip.rotation.y, (targetX - target.x) * (-0.02)⟩ }
    crosshair := ⟨target.x, target.y, -200⟩ }

/-- Lines 116-119: the two spawn timers. -/
def updateSpawners (env : Env) (delta now : ℚ) (g : Game) : Game :=
  let gameTime := (now - g.gameStartTime) / 1000
  let g1 :=
    { g with
      enemySpawnTimer := g.enemySpawnTimer - delta
      asteroidSpawnTimer := g.asteroidSpawnTimer - delta }
  let g2 :=
    if g1.enemySpawnTimer ≤ 0 then
      { spawnEnemy env g1 with enemySpawnTimer := spawnInterval gameTime }
    else g1
  if g2.asteroidSpawnTimer ≤ 0 then
    let g3 := spawnAsteroid env g2
    let r := random env g3
    { r.2 with asteroidSpawnTimer := r.1 * 0.5 + 0.25 }
  else g2

/-- The condition of the projectile-vs-enemy test of line 120. -/
def enemyHit (p : Projectile) (e : Enemy) : Bool :=
  e.isActive && p.isActive && distanceLt p.position e.position 4

/-- The condition of the projectile-vs-asteroid test of line 120. -/
def asteroidHit (p : Projectile) (a : Asteroid) : Bool :=
  a.isActive && p.isActive && distanceLt p.position a.position a.scale.x

/-- What the two inner loops of line 120 read and write besides their own pool: the
projectile `p` of the outer loop, `score` and the score display. -/
structure Shot where
  p : Projectile
  score : Int
  scoreEl : Int
deriving DecidableEq

/-- The callback of `enemyPool.forEach` inside the projectile loop of line 120. -/
def hitEnemy (e : Enemy) (st : Shot) : Enemy × Shot :=
  if enemyHit st.p e then
    (e.release, { p := st.p.release, score := st.score + 10, scoreEl := st.score + 10 })
  else (e, st)

/-- The callback of `asteroidPool.forEach` inside the projectile loop of line 120. -/
def hitAsteroid (a : Asteroid) (st : Shot) : Asteroid × Shot :=
  if asteroidHit st.p a then
    (a.release, { p := st.p.release, score := st.score + 5, scoreEl := st.score + 5 })
  else (a, st)

/-- The movement and culling of a player projectile at the head of the callback of
line 120. -/
def moveProjectile (delta : ℚ) (p : Projectile) : Projectile :=
  let p1 :=
    { p with position := { p.position with z := p.position.z + p.userData.velocity.z * delta } }
  if p1.position.z < -900 then p1.release else p1

/-- The callback of `projectilePool.forEach` (line 120). -/
def stepProjectile (delta : ℚ) (p : Projectile) (g : Game) : Projectile × Game :=
  if p.isActive then
    let r := forEach hitEnemy g.enemyPool ⟨moveProjectile delta p, g.score, g.scoreEl⟩
    let r2 := forEach hitAsteroid g.asteroidPool r.2
    (r2.2.p,
      { g with
        enemyPool := r.1, asteroidPool := r2.1, score := r2.2.score, scoreEl := r2.2.scoreEl })
  else (p, g)

/-- Line 120: the player projectiles. -/
def updateProjectiles (delta : ℚ) (g : Game) : Game :=
  let r := forEach (stepProjectile delta) g.projectilePool g
  { r.2 with projectilePool := r.1 }

/-- The callback of `enemyProjectilePool.forEach` (line 121). -/
def stepEnemyProjectile (delta : ℚ) (p : Projectile) (g : Game) : Projectile × Game :=
  if p.isActive then
    let p1 := { p with position := addScaledVector p.position p.userData.velocity delta }
    let p2 := if p1.position.z > 50 then p1.release else p1
    if distanceLt p2.position g.playerShip.position 3 then (p2.release, takeDamage 1 g)
    else (p2, g)
  else (p, g)

/-- Line 121: the enemy projectiles. -/
def updateEnemyProjectiles (delta : ℚ) (g : Game) : Game :=
  let r := forEach (stepEnemyProjectile delta) g.enemyProjectilePool g
  { r.2 with enemyProjectilePool := r.1 }

/-- The callback of `enemyPool.forEach` (line 122). -/
def stepEnemy (env : Env) (delta : ℚ) (e : Enemy) (g : Game) : Enemy × Game :=
  if e.isActive then
    let e1 :=
      { e with
        position := { e.position with z := e.position.z + e.userData.speed * delta }
        rotation :=
          { e.rotation with x := e.rotation.x + 0.5 * delta, y := e.rotation.y + 0.5 * delta }
        userData := { e.userData with fireTimer := e.userData.fireTimer - delta } }
    let r :=
      if e1.userData.fireTimer ≤ 0 then
        let rr := random env (enemyFire env e1 g)
        ({ e1 with userData := { e1.userData with fireTimer := rr.1 * 3 + 2 } }, rr.2)
      else (e1, g)
    if r.1.position.z > r.2.camera.z then (r.1.release, r.2) else r
  else (e, g)

/-- Line 122: the enemies. -/
def updateEnemies (env : Env) (delta : ℚ) (g : Game) : Game :=
  let r := forEach (stepEnemy env delta) g.enemyPool g
  { r.2 with enemyPool := r.1 }

/-- The movement and culling of an asteroid at the head of the callback of line 123. -/
def moveAsteroid (delta cameraZ : ℚ) (a : Asteroid) : Asteroid :=
  let a1 :=
    { a with
      position := { a.position with z := a.position.z + a.userData.speed * delta }
      rotation :=
        { a.rotation with
          x := a.rotation.x + a.userData.rotation.x * 0.5 * delta
          y := a.rotation.y + a.userData.rotation.y * 0.5 * delta } }
  if a1.position.z > cameraZ then a1.release else a1

/-- The callback of `asteroidPool.forEach` (line 123). -/
def stepAsteroid (delta : ℚ) (a : Asteroid) (g : Game) : Asteroid × Game :=
  if a.isActive then
    let a2 := moveAsteroid delta g.camera.z a
    if distanceLt a2.position g.playerShip.position (a2.scale.x + 1.5) then
      (a2.release, takeDamage 1 g)
    else (a2, g)
  else (a, g)

/-- Line 123: the asteroids. -/
def updateAsteroids (delta : ℚ) (g : Game) : Game :=
  let r := forEach (stepAsteroid delta) g.asteroidPool g
  { r.2 with asteroidPool := r.1 }

/-- Lines 87-88: the starfield scrolls whether or not a game is running. -/
def updateStarfield (delta : ℚ) (g : Game) : Game :=
  let z := g.starfield.z + 250 * delta
  { g with starfield := { g.starfield with z := if z > 1000 then z - 2000 else z } }

/-- The state in which the collision loops of a frame start: after the starfield,
the controls and the spawners of that frame. -/
def beforeCollisions (env : Env) (delta now : ℚ) (g : Game) : Game :=
  updateSpawners env delta now (updateControls delta (updateStarfield delta g))

/-- The state in which the asteroid loop (line 123) of a frame starts. -/
def beforeAsteroids (env : Env) (delta now : ℚ) (g : Game) : Game :=
  updateEnemies env delta
    (updateEnemyProjectiles delta (updateProjectiles delta (beforeCollisions env delta now g)))

/-- `animate` (lines 84-126), one frame: `delta` is `clock.getDelta()` and `now` is
`Date.now()`. -/
def animate (env : Env) (delta now : ℚ) (g : Game) : Game :=
  if !g.isGameOver && g.controlsEnabled then
    updateAsteroids delta (beforeAsteroids env delta now g)
  else updateStarfield delta g

/-! ## Event listeners (lines 129-134) -/

/-- What the page can do to the game between two frames. -/
inductive Event where
  /-- A frame: `animate` with its `delta`, `Date.now()` and environment. -/
  | frame (env : Env) (delta now : ℚ)
  /-- A call of `fireProjectile`. -/
  | fire
  /-- A call of `resetGame` at time `now` (the start button). -/
  | reset (now : ℚ)
  /-- The `mousemove` listener, with the new normalised pointer position. -/
  | mousemove (x y : ℚ)
  /-- The `keydown` / `keyup` listeners, leaving `keyboard` as given. -/
  | keys (k : Keyboard)

/-- The effect of one event on the globals. -/
def Event.apply : Event → Game → Game
  | .frame env delta now, g => animate env delta now g
  | .fire, g => fireProjectile g
  | .reset now, g => resetGame now g
  | .mousemove x y, g => { g with mouse := ⟨x, y⟩ }
  | .keys k, g => { g with keyboard := k }

/-- The states a session can be in: `resetGame` applied to any globals, followed by
any sequence of events. -/
inductive Reachable : Game → Prop where
  | start (now : ℚ) (g : Game) : Reachable (resetGame now g)
  | step (ev : Event) (g : Game) : Reachable g → Reachable (ev.apply g)

/-! ## Frames: what each loop of `animate` can change

Each function below blanks the globals one part of `animate` may write; two states
with equal images agree on all the other globals. -/

/-- Everything but what the projectile loop (line 120) writes. -/
def projectileFrame (g : Game) : Game :=
  { g with score := 0, scoreEl := 0, projectilePool := [], enemyPool := [], asteroidPool := [] }

/-- Everything but what `takeDamage` writes. -/
def damageFrame (g : Game) : Game :=
  { g with
    playerLives := 0, livesEl := 0, isGameOver := false, controlsEnabled := false,
    menuHidden := false, hudOpacity := 0, finalScoreEl := 0 }

/-- Everything but what the enemy-projectile loop (line 121) writes. -/
def enemyProjectileFrame (g : Game) : Game :=
  { damageFrame g with enemyProjectilePool := [] }

/-- Everything but what the enemy loop (line 122) writes. -/
def enemyFrame (g : Game) : Game :=
  { g with enemyPool := [], enemyProjectilePool := [], randomCalls := 0 }

/-- Everything but what the asteroid loop (line 123) writes. -/
def asteroidFrame (g : Game) : Game :=
  { damageFrame g with asteroidPool := [] }

/-- Everything but what the starfield, the controls and the spawners (lines 87-119)
write. -/
def spawnFrame (g : Game) : Game :=
  { g with
    starfield := ⟨0, 0, 0⟩, mouse := ⟨0, 0⟩, playerTargetPosition := ⟨0, 0, 0⟩,
    playerShip := ⟨⟨0, 0, 0⟩, ⟨0, 0, 0⟩⟩, crosshair := ⟨0, 0, 0⟩,
    enemySpawnTimer := 0, asteroidSpawnTimer := 0, enemyPool := [], asteroidPool := [],
    randomCalls := 0 }

/-- The relation between lives and game over that holds throughout a session. -/
def LivesInvariant (g : Game) : Prop :=
  (g.isGameOver = false ∧ 1 ≤ g.playerLives ∧ g.playerLives ≤ 3) ∨
    (g.isGameOver = true ∧ g.playerLives = 0)

/-! ## Vocabulary for the collision theorems -/

/-- The projectile `q` (already moved) passes both tests of line 120 with no active
enemy and no active asteroid of `g`: it hits nothing. -/
def missesAll (q : Projectile) (g : Game) : Bool :=
  g.enemyPool.all (fun e => !enemyHit q e) && g.asteroidPool.all (fun a => !asteroidHit q a)

/-- The globals after a projectile has destroyed the enemy `e` of slot `j`: the slot
released and 10 points scored. -/
def enemyDestroyed (g : Game) (j : Nat) (e : Enemy) : Game :=
  { g with
    enemyPool := g.enemyPool.set j e.release, score := g.score + 10, scoreEl := g.score + 10 }

/-- The globals at the moment the asteroid loop (line 123), started in `g`, has run
its callback on the first `k` asteroids. -/
def asteroidLoopState (delta : ℚ) (g : Game) (k : Nat) : Game :=
  (forEach (stepAsteroid delta) (g.asteroidPool.take k) g).2

/-! ## Sample inputs -/

/-- A sample environment: every `Math.random()` draw is 1/2.  With these draws the
only vector a spawn normalises is the zero vector, which `normalize` leaves as it
is; the sample frames below contain no enemy shot. -/
def sampleEnv : Env := ⟨fun _ => 1 / 2, fun v => v⟩

/-- A fresh session: the page loaded and the start button pressed at time 0. -/
def freshGame : Game := resetGame 0 initialGame

/-- A player projectile in flight along the line `x = 0, y = 5` at depth `z`, as
`fireProjectile` launches them (velocity `(0, 0, -1200)`). -/
def duelShot (z : ℚ) : Projectile :=
  { isActive := true, visible := true, position := ⟨0, 5, z⟩, rotation := ⟨0, 0, 0⟩,
    userData := ⟨⟨0, 0, -1200⟩⟩ }

/-- A fresh session with one player projectile in flight at depth `z`.  The enemy
timer of a fresh session is 0, so the next frame spawns an enemy, with the draws of
`sampleEnv` at `(0, 5, -800)`; the asteroid timer has half a second left. -/
def duelGame (z : ℚ) : Game :=
  { freshGame with
    asteroidSpawnTimer := 1 / 2
    projectilePool := freshGame.projectilePool.set 0 (duelShot z) }

/-- The enemy that the first frame of `duelGame` spawns into slot 0. -/
def duelEnemy : Enemy :=
  { isActive := true, visible := true, position := ⟨0, 5, -800⟩, rotation := ⟨0, 0, 0⟩,
    userData := ⟨230, 2⟩ }

/-- An active enemy on the line `x = 0, y = 5` at depth `z`, flying at 200 units per
second and two seconds away from its next shot. -/
def lineEnemy (z : ℚ) : Enemy :=
  { isActive := true, visible := true, position := ⟨0, 5, z⟩, rotation := ⟨0, 0, 0⟩,
    userData := ⟨200, 2⟩ }

/-- An active asteroid of the given scale at `pos`, drifting at 100 units per second
and spinning about the x axis. -/
def rock (pos : Vector3) (scale : ℚ) : Asteroid :=
  { isActive := true, visible := true, position := pos, rotation := ⟨0, 0, 0⟩,
    scale := ⟨scale, scale, scale⟩, userData := ⟨100, ⟨1, 0, 0⟩⟩ }

/-- A running session in which a player projectile at depth -785 is about to fly
into two enemies (slots 0 and 1, at depths -799 and -800) and an asteroid of scale 3
(slot 0, at depth -798); both spawn timers have half a second left. -/
def crossfireGame : Game :=
  { freshGame with
    enemySpawnTimer := 1 / 2
    asteroidSpawnTimer := 1 / 2
    projectilePool := freshGame.projectilePool.set 0 (duelShot (-785))
    enemyPool := (freshGame.enemyPool.set 0 (lineEnemy (-799))).set 1 (lineEnemy (-800))
    asteroidPool := freshGame.asteroidPool.set 0 (rock ⟨0, 5, -798⟩ 3) }

/-- A running session on its last life with two asteroids of scale 2 next to the
ship (slots 0 and 1); both spawn timers have half a second left. -/
def lastLifeGame : Game :=
  { freshGame with
    playerLives := 1
    livesEl := 1
    enemySpawnTimer := 1 / 2
    asteroidSpawnTimer := 1 / 2
    asteroidPool :=
      (freshGame.asteroidPool.set 0 (rock ⟨0, 0, -2⟩ 2)).set 1 (rock ⟨1, 0, -2⟩ 2) }

/-! ## Pool lemmas -/

theorem updateFirst_length {α : Type} (pred : α → Bool) (f : α → α) (xs : List α) :
    (updateFirst pred f xs).length = xs.length := by
  induction xs with
  | nil => rfl
  | cons x xs ih =>
    unfold updateFirst
    split <;> simp [ih]

theorem updateFirst_none {α : Type} (pred : α → Bool) (f : α → α) (xs : List α)
    (h : ∀ x ∈ xs, pred x = false) : updateFirst pred f xs = xs := by
  induction xs with
  | nil => rfl
  | cons x xs ih =>
    unfold updateFirst
    have hx : pred x = false := h x (List.mem_cons_self x xs)
    simp only [hx, Bool.false_eq_true, if_false]
    rw [ih (fun y hy => h y (List.mem_cons_of_mem x hy))]

/-- A slot that does not satisfy `pred` is never the one `updateFirst` changes. -/
theorem updateFirst_keeps {α : Type} (pred : α → Bool) (f : α → α) (xs : List α) (j : Nat)
    (x : α) (hx : xs[j]? = some x) (hp : pred x = false) :
    (updateFirst pred f xs)[j]? = some x := by
  induction xs generalizing j with
  | nil => simp at hx
  | cons y ys ih =>
    unfold updateFirst
    cases j with
    | zero =>
      simp only [List.getElem?_cons_zero, Option.some.injEq] at hx
      subst hx
      simp [hp]
    | succ j =>
      simp only [List.getElem?_cons_succ] at hx
      split
      · simpa using hx
      · simpa using ih j hx

/-- The slot `updateFirst` changes is the first one satisfying `pred`; every other
slot is as before. -/
theorem updateFirst_first {α : Type} (pred : α → Bool) (f : α → α) (xs : List α) (k : Nat)
    (x : α) (hx : xs[k]? = some x) (hp : pred x = true)
    (hfirst : ∀ j y, j < k → xs[j]? = some y → pred y = false) :
    (updateFirst pred f xs)[k]? = some (f x) ∧
      ∀ j, j ≠ k → (updateFirst pred f xs)[j]? = xs[j]? := by
  induction xs generalizing k with
  | nil => simp at hx
  | cons y ys ih =>
    unfold updateFirst
    cases k with
    | zero =>
      simp only [List.getElem?_cons_zero, Option.some.injEq] at hx
      subst hx
      simp only [hp, if_true, List.getElem?_cons_zero, true_and]
      intro j hj
      cases j with
      | zero => exact absurd rfl hj
      | succ j => simp
    | succ k =>
      simp only [List.getElem?_cons_succ] at hx
      have hy : pred y = false := hfirst 0 y (Nat.succ_pos k) (by simp)
      simp only [hy, Bool.false_eq_true, if_false, List.getElem?_cons_succ]
      have h := ih k hx (fun j z hj hz => hfirst (j + 1) z (Nat.succ_lt_succ hj) (by simpa using hz))
      refine ⟨h.1, ?_⟩
      intro j hj
      cases j with
      | zero => simp
      | succ j =>
        simp only [List.getElem?_cons_succ]
        exact h.2 j (fun hjk => hj (by rw [hjk]))

/-- A slot is either left alone by `updateFirst` or replaced by `f` of it. -/
theorem updateFirst_cases {α : Type} (pred : α → Bool) (f : α → α) (xs : List α) (i : Nat)
    (x : α) (hx : xs[i]? = some x) :
    (updateFirst pred f xs)[i]? = some x ∨ (updateFirst pred f xs)[i]? = some (f x) := by
  induction xs generalizing i with
  | nil => simp at hx
  | cons y ys ih =>
    unfold updateFirst
    cases i with
    | zero =>
      simp only [List.getElem?_cons_zero, Option.some.injEq] at hx
      subst hx
      split
      · right
        simp
      · left
        simp
    | succ i =>
      simp only [List.getElem?_cons_succ] at hx
      split
      · left
        simpa using hx
      · simpa using ih i hx

/-- A slot behind one that satisfies `pred` is left alone by `updateFirst`. -/
theorem updateFirst_later {α : Type} (pred : α → Bool) (f : α → α) (xs : List α) (i j : Nat)
    (x y : α) (hx : xs[i]? = some x) (hj : j < i) (hy : xs[j]? = some y) (hp : pred y = true) :
    (updateFirst pred f xs)[i]? = some x := by
  induction xs generalizing i j with
  | nil => simp at hx
  | cons z zs ih =>
    unfold updateFirst
    cases i with
    | zero => exact absurd hj (Nat.not_lt_zero j)
    | succ i =>
      simp only [List.getElem?_cons_succ] at hx
      split
      · simpa using hx
      · rename_i hz
        cases j with
        | zero =>
          simp only [List.getElem?_cons_zero, Option.some.injEq] at hy
          subst hy
          exact absurd hp hz
        | succ j =>
          simp only [List.getElem?_cons_succ] at hy
          simpa using ih i j hx (Nat.lt_of_succ_lt_succ hj) hy

/-! ## Session state: `resetGame` and `takeDamage` -/

/-- C1: from every prior state, `resetGame` yields score 0, three lives, a game that
is not over with the controls enabled, every slot of the four pools inactive (the
pools keeping their sizes), and the ship and its smoothed target at the origin. -/
theorem resetGame_resets (now : ℚ) (g : Game) :
    (resetGame now g).score = 0 ∧ (resetGame now g).playerLives = 3 ∧
    (resetGame now g).isGameOver = false ∧ (resetGame now g).controlsEnabled = true ∧
    (∀ p ∈ (resetGame now g).projectilePool, p.isActive = false) ∧
    (∀ p ∈ (resetGame now g).enemyProjectilePool, p.isActive = false) ∧
    (∀ e ∈ (resetGame now g).enemyPool, e.isActive = false) ∧
    (∀ a ∈ (resetGame now g).asteroidPool, a.isActive = false) ∧
    (resetGame now g).projectilePool.length = g.projectilePool.length ∧
    (resetGame now g).enemyProjectilePool.length = g.enemyProjectilePool.length ∧
    (resetGame now g).enemyPool.length = g.enemyPool.length ∧
    (resetGame now g).asteroidPool.length = g.asteroidPool.length ∧
    (resetGame now g).playerShip.position = ⟨0, 0, 0⟩ ∧
    (resetGame now g).playerTargetPosition = ⟨0, 0, 0⟩ := by
  refine ⟨rfl, rfl, rfl, rfl, ?_, ?_, ?_, ?_, ?_, ?_, ?_, ?_, rfl, rfl⟩
  · intro p hp
    simp only [resetGame, List.mem_map] at hp
    obtain ⟨q, _, rfl⟩ := hp
    rfl
  · intro p hp
    simp only [resetGame, List.mem_map] at hp
    obtain ⟨q, _, rfl⟩ := hp
    rfl
  · intro p hp
    simp only [resetGame, List.mem_map] at hp
    obtain ⟨q, _, rfl⟩ := hp
    rfl
  · intro p hp
    simp only [resetGame, List.mem_map] at hp
    obtain ⟨q, _, rfl⟩ := hp
    rfl
  · simp [resetGame]
  · simp [resetGame]
  · simp [resetGame]
  · simp [resetGame]

/-- C2: when the game is over, `takeDamage n` returns the globals exactly as they
were, for every amount `n`. -/
theorem takeDamage_over_noop (g : Game) (n : Int) (h : g.isGameOver = true) :
    takeDamage n g = g := by
  simp [takeDamage, h]

theorem takeDamage_over_noop_witness :
    (endGame (resetGame 0 initialGame)).isGameOver = true ∧
      takeDamage 1 (endGame (resetGame 0 initialGame)) = endGame (resetGame 0 initialGame) :=
  ⟨rfl, takeDamage_over_noop (endGame (resetGame 0 initialGame)) 1 rfl⟩

/-- C3: in a state that is not over, `takeDamage n` sets `playerLives` to
`lives - n`, shows `max 0 (lives - n)`, sets `isGameOver` exactly when
`lives - n ≤ 0` and leaves the score alone; from three lives, three unit hits leave
the game running after the first and the second and over after the third, with the
lives display at 0. -/
theorem takeDamage_lives (g : Game) (n : Int) (h : g.isGameOver = false) :
    (takeDamage n g).playerLives = g.playerLives - n ∧
    (takeDamage n g).livesEl = max 0 (g.playerLives - n) ∧
    ((takeDamage n g).isGameOver = true ↔ g.playerLives - n ≤ 0) ∧
    (takeDamage n g).score = g.score ∧
    (g.playerLives = 3 →
      (takeDamage 1 g).isGameOver = false ∧
      (takeDamage 1 (takeDamage 1 g)).isGameOver = false ∧
      (takeDamage 1 (takeDamage 1 (takeDamage 1 g))).isGameOver = true ∧
      (takeDamage 1 (takeDamage 1 (takeDamage 1 g))).livesEl = 0 ∧
      (takeDamage 1 (takeDamage 1 (takeDamage 1 g))).playerLives = 0) := by
  refine ⟨?_, ?_, ?_, ?_, ?_⟩
  · by_cases hl : g.playerLives - n ≤ 0 <;> simp [takeDamage, endGame, h, hl]
  · by_cases hl : g.playerLives - n ≤ 0 <;> simp [takeDamage, endGame, h, hl]
  · by_cases hl : g.playerLives - n ≤ 0 <;> simp [takeDamage, endGame, h, hl]
  · by_cases hl : g.playerLives - n ≤ 0 <;> simp [takeDamage, endGame, h, hl]
  · intro h3
    simp [takeDamage, endGame, h, h3]

theorem takeDamage_lives_witness :
    (resetGame 0 initialGame).isGameOver = false ∧
    (resetGame 0 initialGame).playerLives = 3 ∧
    (takeDamage 1 (resetGame 0 initialGame)).isGameOver = false ∧
    (takeDamage 1 (takeDamage 1 (resetGame 0 initialGame))).isGameOver = false ∧
    (takeDamage 1 (takeDamage 1 (takeDamage 1 (resetGame 0 initialGame)))).isGameOver = true ∧
    (takeDamage 1 (takeDamage 1 (takeDamage 1 (resetGame 0 initialGame)))).livesEl = 0 ∧
    (takeDamage 1 (takeDamage 1 (takeDamage 1 (resetGame 0 initialGame)))).playerLives = 0 :=
  ⟨rfl, rfl, (takeDamage_lives (resetGame 0 initialGame) 1 rfl).2.2.2.2 rfl⟩

/-! ## The projectile pool: `fireProjectile` -/

/-- C4: `fireProjectile` keeps the pool size, so the active count never exceeds it;
it never changes a slot that is active; when every slot is active it changes
nothing at all; and when slot `k` is the first inactive one, that slot becomes the
launched projectile (active) and every other slot is as before.  Score and lives
are never touched. -/
theorem fireProjectile_pool (g : Game) :
    (fireProjectile g).projectilePool.length = g.projectilePool.length ∧
    activeCount (fireProjectile g).projectilePool ≤ g.projectilePool.length ∧
    (∀ (j : Nat) (p : Projectile), g.projectilePool[j]? = some p → p.isActive = true →
      (fireProjectile g).projectilePool[j]? = some p) ∧
    ((∀ p ∈ g.projectilePool, p.isActive = true) → fireProjectile g = g) ∧
    (∀ (k : Nat) (p : Projectile), g.projectilePool[k]? = some p → p.isActive = false →
      (∀ (j : Nat) (q : Projectile), j < k → g.projectilePool[j]? = some q → q.isActive = true) →
      (fireProjectile g).projectilePool[k]? = some (launch g.playerShip.position p) ∧
      (launch g.playerShip.position p).isActive = true ∧
      ∀ j, j ≠ k → (fireProjectile g).projectilePool[j]? = g.projectilePool[j]?) ∧
    (fireProjectile g).score = g.score ∧ (fireProjectile g).playerLives = g.playerLives := by
  have hlen : (fireProjectile g).projectilePool.length = g.projectilePool.length := by
    unfold fireProjectile
    split
    · exact updateFirst_length _ _ _
    · rfl
  refine ⟨hlen, ?_, ?_, ?_, ?_, ?_, ?_⟩
  · rw [← hlen]
    exact List.countP_le_length _
  · intro j p hj hp
    unfold fireProjectile
    split
    · exact updateFirst_keeps _ _ _ j p hj (by simp [hp])
    · exact hj
  · intro hall
    unfold fireProjectile
    split
    · rename_i hany
      rw [List.any_eq_true] at hany
      obtain ⟨p, hp, hq⟩ := hany
      simp [hall p hp] at hq
    · rfl
  · intro k p hk hp hfirst
    have hany : g.projectilePool.any (fun proj => !proj.isActive) = true := by
      rw [List.any_eq_true]
      exact ⟨p, List.getElem?_mem hk, by simp [hp]⟩
    have h := updateFirst_first (fun proj : Projectile => !proj.isActive)
      (launch g.playerShip.position) g.projectilePool k p hk (by simp [hp])
      (fun j q hj hq => by simp [hfirst j q hj hq])
    simp only [fireProjectile, hany, if_true]
    exact ⟨h.1, rfl, h.2⟩
  · unfold fireProjectile
    split <;> rfl
  · unfold fireProjectile
    split <;> rfl

/-! ## The enemy spawn interval -/

/-- C7: the enemy spawn interval `max 0.2 (1.2 - min (t / 60) 1)` is non-increasing
in the session time `t` from `t = 0` on, is never below 0.2, is 1.2 at `t = 0` and
0.2 from `t = 60` on; it is the value `animate` gives `enemySpawnTimer` whenever
that timer runs out. -/
theorem spawnInterval_ramp :
    (∀ t1 t2 : ℚ, 0 ≤ t1 → t1 ≤ t2 → spawnInterval t2 ≤ spawnInterval t1) ∧
    (∀ t : ℚ, 0.2 ≤ spawnInterval t) ∧
    spawnInterval 0 = 1.2 ∧
    (∀ t : ℚ, 60 ≤ t → spawnInterval t = 0.2) ∧
    (∀ (env : Env) (delta now : ℚ) (g : Game), g.enemySpawnTimer - delta ≤ 0 →
      (updateSpawners env delta now g).enemySpawnTimer =
        spawnInterval ((now - g.gameStartTime) / 1000)) := by
  refine ⟨?_, ?_, ?_, ?_, ?_⟩
  · intro t1 t2 _ h
    unfold spawnInterval
    apply max_le_max le_rfl
    apply sub_le_sub_left
    apply min_le_min_right
    exact div_le_div_of_nonneg_right h (by norm_num)
  · intro t
    unfold spawnInterval
    exact le_max_left _ _
  · unfold spawnInterval
    norm_num
  · intro t ht
    unfold spawnInterval
    have h1 : (1.0 : ℚ) ≤ t / 60 := by
      rw [le_div_iff₀ (by norm_num)]
      linarith
    rw [min_eq_right h1]
    norm_num
  · intro env delta now g h
    unfold updateSpawners
    simp only [h, if_true]
    split
    · simp only [random, spawnAsteroid]
      split <;> rfl
    · rfl

/-! ## Loop lemmas -/

theorem forEach_length {α σ : Type} (f : α → σ → α × σ) (xs : List α) (s : σ) :
    (forEach f xs s).1.length = xs.length := by
  induction xs generalizing s with
  | nil => rfl
  | cons x xs ih => simp [forEach, ih]

/-- A property of the surrounding state that every callback keeps is kept by the loop. -/
theorem forEach_inv {α σ : Type} (f : α → σ → α × σ) (P : σ → Prop)
    (hP : ∀ x s, P s → P (f x s).2) (xs : List α) (s : σ) (hs : P s) :
    P (forEach f xs s).2 := by
  induction xs generalizing s with
  | nil => exact hs
  | cons x xs ih => exact ih (f x s).2 (hP x s hs)

/-- A component of the surrounding state that no callback changes is the same after
the loop. -/
theorem forEach_field {α σ β : Type} (f : α → σ → α × σ) (π : σ → β)
    (h : ∀ x s, π (f x s).2 = π s) (xs : List α) (s : σ) :
    π (forEach f xs s).2 = π s :=
  forEach_inv f (fun t => π t = π s) (fun x t ht => (h x t).trans ht) xs s rfl

/-- The element at index `i` after the loop is the callback's result on the element
that was there, in some state that satisfies every property the callbacks keep. -/
theorem forEach_getElem {α σ : Type} (f : α → σ → α × σ) (P : σ → Prop)
    (hP : ∀ x s, P s → P (f x s).2) (xs : List α) (s : σ) (hs : P s) (i : Nat) (x : α)
    (hx : xs[i]? = some x) :
    ∃ t, P t ∧ (forEach f xs s).1[i]? = some (f x t).1 := by
  induction xs generalizing s i with
  | nil => simp at hx
  | cons y ys ih =>
    cases i with
    | zero =>
      simp only [List.getElem?_cons_zero, Option.some.injEq] at hx
      subst hx
      exact ⟨s, hs, by simp [forEach]⟩
    | succ i =>
      simp only [List.getElem?_cons_succ] at hx
      obtain ⟨t, ht, h⟩ := ih (f y s).2 (hP y s hs) i hx
      exact ⟨t, ht, by simpa [forEach] using h⟩

/-- An element the callback never changes is the same after the loop. -/
theorem forEach_keeps {α σ : Type} (f : α → σ → α × σ) (xs : List α) (s : σ) (i : Nat)
    (x : α) (hx : xs[i]? = some x) (hf : ∀ t, (f x t).1 = x) :
    (forEach f xs s).1[i]? = some x := by
  obtain ⟨t, _, h⟩ := forEach_getElem f (fun _ => True) (fun _ _ _ => trivial) xs s trivial i x hx
  rw [h, hf t]

/-- A loop whose callbacks all leave the state `s` as it is leaves it as it is, and
each element is the callback's result in `s`. -/
theorem forEach_fixed {α σ : Type} (f : α → σ → α × σ) (xs : List α) (s : σ)
    (h : ∀ x ∈ xs, (f x s).2 = s) :
    forEach f xs s = (xs.map (fun x => (f x s).1), s) := by
  induction xs with
  | nil => rfl
  | cons x xs ih =>
    have hx : (f x s).2 = s := h x (List.mem_cons_self x xs)
    simp only [forEach, hx, List.map_cons]
    rw [ih (fun y hy => h y (List.mem_cons_of_mem x hy))]

/-! ## Frame lemmas for the parts of `animate` -/

theorem takeDamage_frame (n : Int) (g : Game) : damageFrame (takeDamage n g) = damageFrame g := by
  unfold takeDamage endGame
  by_cases h : g.isGameOver = true
  · simp [h]
  · by_cases hl : g.playerLives - n ≤ 0 <;> simp [h, hl, damageFrame]

theorem stepProjectile_frame (delta : ℚ) (p : Projectile) (g : Game) :
    projectileFrame (stepProjectile delta p g).2 = projectileFrame g := by
  unfold stepProjectile
  split <;> rfl

theorem updateProjectiles_frame (delta : ℚ) (g : Game) :
    projectileFrame (updateProjectiles delta g) = projectileFrame g :=
  forEach_field (stepProjectile delta) projectileFrame (stepProjectile_frame delta)
    g.projectilePool g

theorem stepEnemyProjectile_frame (delta : ℚ) (p : Projectile) (g : Game) :
    enemyProjectileFrame (stepEnemyProjectile delta p g).2 = enemyProjectileFrame g := by
  have h : enemyProjectileFrame (takeDamage 1 g) = enemyProjectileFrame g :=
    congrArg (fun x : Game => { x with enemyProjectilePool := [] }) (takeDamage_frame 1 g)
  unfold stepEnemyProjectile
  split
  · dsimp only
    repeat' split
    all_goals first | rfl | exact h
  · rfl

theorem updateEnemyProjectiles_frame (delta : ℚ) (g : Game) :
    enemyProjectileFrame (updateEnemyProjectiles delta g) = enemyProjectileFrame g :=
  forEach_field (stepEnemyProjectile delta) enemyProjectileFrame
    (stepEnemyProjectile_frame delta) g.enemyProjectilePool g

theorem stepEnemy_frame (env : Env) (delta : ℚ) (e : Enemy) (g : Game) :
    enemyFrame (stepEnemy env delta e g).2 = enemyFrame g := by
  unfold stepEnemy
  split
  · dsimp only
    repeat' split
    all_goals rfl
  · rfl

theorem updateEnemies_frame (env : Env) (delta : ℚ) (g : Game) :
    enemyFrame (updateEnemies env delta g) = enemyFrame g :=
  forEach_field (stepEnemy env delta) enemyFrame (stepEnemy_frame env delta) g.enemyPool g

theorem stepAsteroid_frame (delta : ℚ) (a : Asteroid) (g : Game) :
    asteroidFrame (stepAsteroid delta a g).2 = asteroidFrame g := by
  have h : asteroidFrame (takeDamage 1 g) = asteroidFrame g :=
    congrArg (fun x : Game => { x with asteroidPool := [] }) (takeDamage_frame 1 g)
  unfold stepAsteroid
  split
  · dsimp only
    repeat' split
    all_goals first | rfl | exact h
  · rfl

theorem updateAsteroids_frame (delta : ℚ) (g : Game) :
    asteroidFrame (updateAsteroids delta g) = asteroidFrame g :=
  forEach_field (stepAsteroid delta) asteroidFrame (stepAsteroid_frame delta) g.asteroidPool g

theorem spawnEnemy_frame (env : Env) (g : Game) : spawnFrame (spawnEnemy env g) = spawnFrame g := by
  unfold spawnEnemy
  split <;> rfl

theorem spawnAsteroid_frame (env : Env) (g : Game) :
    spawnFrame (spawnAsteroid env g) = spawnFrame g := by
  unfold spawnAsteroid
  split <;> rfl

theorem updateSpawners_frame (env : Env) (delta now : ℚ) (g : Game) :
    spawnFrame (updateSpawners env delta now g) = spawnFrame g := by
  unfold updateSpawners
  simp only []
  split
  · split
    · exact (spawnAsteroid_frame env _).trans (spawnEnemy_frame env _)
    · exact spawnEnemy_frame env _
  · split
    · exact spawnAsteroid_frame env _
    · rfl

theorem beforeCollisions_frame (env : Env) (delta now : ℚ) (g : Game) :
    spawnFrame (beforeCollisions env delta now g) = spawnFrame g :=
  updateSpawners_frame env delta now _

/-! ## Lives and game over across a session -/

theorem LivesInvariant.of_eq {g g' : Game} (h : LivesInvariant g)
    (h1 : g'.isGameOver = g.isGameOver) (h2 : g'.playerLives = g.playerLives) :
    LivesInvariant g' := by
  unfold LivesInvariant at *
  rw [h1, h2]
  exact h

theorem takeDamage_invariant (g : Game) (h : LivesInvariant g) :
    LivesInvariant (takeDamage 1 g) := by
  unfold LivesInvariant at *
  rcases h with ⟨h1, h2, h3⟩ | ⟨h1, h2⟩
  · by_cases hl : g.playerLives - 1 ≤ 0
    · right
      simp only [takeDamage, endGame, h1, hl, if_true, Bool.false_eq_true, if_false, true_and]
      omega
    · left
      simp only [takeDamage, endGame, h1, hl, if_false, Bool.false_eq_true, true_and]
      omega
  · right
    have hsame : takeDamage 1 g = g := by simp [takeDamage, h1]
    rw [hsame]
    exact ⟨h1, by assumption⟩

theorem stepEnemyProjectile_invariant (delta : ℚ) (p : Projectile) (g : Game)
    (h : LivesInvariant g) : LivesInvariant (stepEnemyProjectile delta p g).2 := by
  unfold stepEnemyProjectile
  split
  · dsimp only
    repeat' split
    all_goals first | exact h | exact takeDamage_invariant g h
  · exact h

theorem stepAsteroid_invariant (delta : ℚ) (a : Asteroid) (g : Game)
    (h : LivesInvariant g) : LivesInvariant (stepAsteroid delta a g).2 := by
  unfold stepAsteroid
  split
  · dsimp only
    repeat' split
    all_goals first | exact h | exact takeDamage_invariant g h
  · exact h

theorem spawnFrame_session {g g' : Game} (h : spawnFrame g' = spawnFrame g) :
    g'.isGameOver = g.isGameOver ∧ g'.playerLives = g.playerLives ∧ g'.score = g.score := by
  have a := congrArg Game.isGameOver h
  have b := congrArg Game.playerLives h
  have c := congrArg Game.score h
  exact ⟨a, b, c⟩

theorem projectileFrame_session {g g' : Game} (h : projectileFrame g' = projectileFrame g) :
    g'.isGameOver = g.isGameOver ∧ g'.playerLives = g.playerLives := by
  have a := congrArg Game.isGameOver h
  have b := congrArg Game.playerLives h
  exact ⟨a, b⟩

theorem enemyFrame_session {g g' : Game} (h : enemyFrame g' = enemyFrame g) :
    g'.isGameOver = g.isGameOver ∧ g'.playerLives = g.playerLives ∧ g'.score = g.score := by
  have a := congrArg Game.isGameOver h
  have b := congrArg Game.playerLives h
  have c := congrArg Game.score h
  exact ⟨a, b, c⟩

theorem updateEnemyProjectiles_invariant (delta : ℚ) (g : Game) (h : LivesInvariant g) :
    LivesInvariant (updateEnemyProjectiles delta g) :=
  (forEach_inv (stepEnemyProjectile delta) LivesInvariant (stepEnemyProjectile_invariant delta)
    g.enemyProjectilePool g h).of_eq rfl rfl

theorem updateAsteroids_invariant (delta : ℚ) (g : Game) (h : LivesInvariant g) :
    LivesInvariant (updateAsteroids delta g) :=
  (forEach_inv (stepAsteroid delta) LivesInvariant (stepAsteroid_invariant delta)
    g.asteroidPool g h).of_eq rfl rfl

theorem animate_invariant (env : Env) (delta now : ℚ) (g : Game) (h : LivesInvariant g) :
    LivesInvariant (animate env delta now g) := by
  unfold animate
  split
  · have f0 := spawnFrame_session (beforeCollisions_frame env delta now g)
    have h0 : LivesInvariant (beforeCollisions env delta now g) := h.of_eq f0.1 f0.2.1
    have f1 := projectileFrame_session
      (updateProjectiles_frame delta (beforeCollisions env delta now g))
    have h1 := h0.of_eq f1.1 f1.2
    have h2 := updateEnemyProjectiles_invariant delta _ h1
    have f3 := enemyFrame_session (updateEnemies_frame env delta
      (updateEnemyProjectiles delta (updateProjectiles delta (beforeCollisions env delta now g))))
    have h3 := h2.of_eq f3.1 f3.2.1
    exact updateAsteroids_invariant delta _ h3
  · exact h.of_eq rfl rfl

theorem fireProjectile_session (g : Game) :
    (fireProjectile g).isGameOver = g.isGameOver ∧
      (fireProjectile g).playerLives = g.playerLives ∧ (fireProjectile g).score = g.score := by
  unfold fireProjectile
  split <;> exact ⟨rfl, rfl, rfl⟩

theorem reachable_invariant (g : Game) (h : Reachable g) : LivesInvariant g := by
  induction h with
  | start now g => exact Or.inl ⟨rfl, show (1 : Int) ≤ 3 by decide, show (3 : Int) ≤ 3 by decide⟩
  | step ev g _ ih =>
    cases ev with
    | frame env delta now => exact animate_invariant env delta now g ih
    | fire => exact ih.of_eq (fireProjectile_session g).1 (fireProjectile_session g).2.1
    | reset now => exact Or.inl ⟨rfl, show (1 : Int) ≤ 3 by decide, show (3 : Int) ≤ 3 by decide⟩
    | mousemove x y => exact ih
    | keys k => exact ih

/-- C10: in every state reachable from `resetGame` by frames (any `delta`, any random
draws), `fireProjectile` calls, `resetGame` calls and input events, `playerLives` is
between 0 and 3 and `isGameOver` holds exactly when `playerLives` is 0; and once
`playerLives` is 0, every event other than `resetGame` leaves `playerLives` at 0 and
`score` as it is. -/
theorem lives_bounded (g : Game) (h : Reachable g) :
    0 ≤ g.playerLives ∧ g.playerLives ≤ 3 ∧ (g.isGameOver = true ↔ g.playerLives = 0) ∧
    (g.playerLives = 0 → ∀ ev : Event, (∀ now, ev ≠ Event.reset now) →
      (ev.apply g).playerLives = 0 ∧ (ev.apply g).score = g.score) := by
  have inv := reachable_invariant g h
  have hover : g.playerLives = 0 → g.isGameOver = true := by
    intro h0
    rcases inv with ⟨_, h2, _⟩ | ⟨h1, _⟩
    · omega
    · exact h1
  refine ⟨?_, ?_, ?_, ?_⟩
  · rcases inv with ⟨_, h2, _⟩ | ⟨_, h2⟩ <;> omega
  · rcases inv with ⟨_, _, h3⟩ | ⟨_, h2⟩ <;> omega
  · constructor
    · intro ho
      rcases inv with ⟨h1, _, _⟩ | ⟨_, h2⟩
      · rw [h1] at ho
        exact absurd ho (by decide)
      · exact h2
    · exact hover
  · intro h0 ev hev
    have ho := hover h0
    cases ev with
    | frame env delta now =>
      simp only [Event.apply, animate, ho, Bool.not_true, Bool.false_and, Bool.false_eq_true,
        if_false]
      exact ⟨h0, rfl⟩
    | fire => exact ⟨(fireProjectile_session g).2.1.trans h0, (fireProjectile_session g).2.2⟩
    | reset now => exact absurd rfl (hev now)
    | mousemove x y => exact ⟨h0, rfl⟩
    | keys k => exact ⟨h0, rfl⟩

theorem lives_bounded_witness :
    Reachable (Event.apply (Event.frame sampleEnv (1 / 60) 16) (fireProjectile freshGame)) ∧
    0 ≤ (Event.apply (Event.frame sampleEnv (1 / 60) 16) (fireProjectile freshGame)).playerLives ∧
    (Event.apply (Event.frame sampleEnv (1 / 60) 16) (fireProjectile freshGame)).playerLives ≤ 3 :=
  have hr : Reachable
      (Event.apply (Event.frame sampleEnv (1 / 60) 16) (fireProjectile freshGame)) :=
    Reachable.step (Event.frame sampleEnv (1 / 60) 16) _
      (Reachable.step Event.fire _ (Reachable.start 0 initialGame))
  ⟨hr, (lives_bounded _ hr).1, (lives_bounded _ hr).2.1⟩

/-! ## Inactive slots across a frame -/

theorem spawnFrame_pools {g g' : Game} (h : spawnFrame g' = spawnFrame g) :
    g'.projectilePool = g.projectilePool ∧ g'.enemyProjectilePool = g.enemyProjectilePool := by
  have a := congrArg Game.projectilePool h
  have b := congrArg Game.enemyProjectilePool h
  exact ⟨a, b⟩

theorem projectileFrame_pools {g g' : Game} (h : projectileFrame g' = projectileFrame g) :
    g'.enemyProjectilePool = g.enemyProjectilePool := by
  have a := congrArg Game.enemyProjectilePool h
  exact a

theorem enemyProjectileFrame_pools {g g' : Game}
    (h : enemyProjectileFrame g' = enemyProjectileFrame g) :
    g'.projectilePool = g.projectilePool ∧ g'.enemyPool = g.enemyPool ∧
      g'.asteroidPool = g.asteroidPool ∧ g'.score = g.score := by
  have a := congrArg Game.projectilePool h
  have b := congrArg Game.enemyPool h
  have c := congrArg Game.asteroidPool h
  have d := congrArg Game.score h
  exact ⟨a, b, c, d⟩

theorem enemyFrame_pools {g g' : Game} (h : enemyFrame g' = enemyFrame g) :
    g'.projectilePool = g.projectilePool ∧ g'.asteroidPool = g.asteroidPool := by
  have a := congrArg Game.projectilePool h
  have b := congrArg Game.asteroidPool h
  exact ⟨a, b⟩

theorem asteroidFrame_pools {g g' : Game} (h : asteroidFrame g' = asteroidFrame g) :
    g'.projectilePool = g.projectilePool ∧ g'.enemyProjectilePool = g.enemyProjectilePool ∧
      g'.enemyPool = g.enemyPool ∧ g'.score = g.score := by
  have a := congrArg Game.projectilePool h
  have b := congrArg Game.enemyProjectilePool h
  have c := congrArg Game.enemyPool h
  have d := congrArg Game.score h
  exact ⟨a, b, c, d⟩

theorem stepProjectile_inactive (delta : ℚ) (p : Projectile) (hp : p.isActive = false)
    (g : Game) : (stepProjectile delta p g).1 = p := by
  simp [stepProjectile, hp]

theorem stepEnemyProjectile_inactive (delta : ℚ) (p : Projectile) (hp : p.isActive = false)
    (g : Game) : (stepEnemyProjectile delta p g).1 = p := by
  simp [stepEnemyProjectile, hp]

theorem stepEnemy_inactive (env : Env) (delta : ℚ) (e : Enemy) (he : e.isActive = false)
    (g : Game) : (stepEnemy env delta e g).1 = e := by
  simp [stepEnemy, he]

theorem stepAsteroid_inactive (delta : ℚ) (a : Asteroid) (ha : a.isActive = false)
    (g : Game) : (stepAsteroid delta a g).1 = a := by
  simp [stepAsteroid, ha]

theorem hitEnemy_inactive (e : Enemy) (he : e.isActive = false) (st : Shot) :
    (hitEnemy e st).1 = e := by
  simp [hitEnemy, enemyHit, he]

theorem hitAsteroid_inactive (a : Asteroid) (ha : a.isActive = false) (st : Shot) :
    (hitAsteroid a st).1 = a := by
  simp [hitAsteroid, asteroidHit, ha]

theorem updateProjectiles_enemy_inactive (delta : ℚ) (g : Game) (i : Nat) (e : Enemy)
    (hi : g.enemyPool[i]? = some e) (he : e.isActive = false) :
    (updateProjectiles delta g).enemyPool[i]? = some e := by
  refine forEach_inv (stepProjectile delta) (fun s => s.enemyPool[i]? = some e) ?_
    g.projectilePool g hi
  intro p s hs
  unfold stepProjectile
  split
  · exact forEach_keeps hitEnemy s.enemyPool _ i e hs (hitEnemy_inactive e he)
  · exact hs

theorem updateProjectiles_asteroid_inactive (delta : ℚ) (g : Game) (i : Nat) (a : Asteroid)
    (hi : g.asteroidPool[i]? = some a) (ha : a.isActive = false) :
    (updateProjectiles delta g).asteroidPool[i]? = some a := by
  refine forEach_inv (stepProjectile delta) (fun s => s.asteroidPool[i]? = some a) ?_
    g.projectilePool g hi
  intro p s hs
  unfold stepProjectile
  split
  · exact forEach_keeps hitAsteroid s.asteroidPool _ i a hs (hitAsteroid_inactive a ha)
  · exact hs

theorem spawnEnemy_enemyPool (env : Env) (g : Game) :
    ∃ f, (spawnEnemy env g).enemyPool = updateFirst (fun en => !en.isActive) f g.enemyPool := by
  refine ⟨initEnemy (env.random g.randomCalls) (env.random (g.randomCalls + 1))
    (env.random (g.randomCalls + 2)) (env.random (g.randomCalls + 3)), ?_⟩
  unfold spawnEnemy
  split
  · rfl
  · rename_i hany
    refine (updateFirst_none _ _ _ ?_).symm
    intro x hx
    by_contra hpx
    exact hany (List.any_eq_true.mpr ⟨x, hx, by simpa using hpx⟩)

theorem spawnAsteroid_asteroidPool (env : Env) (g : Game) :
    ∃ f, (spawnAsteroid env g).asteroidPool =
      updateFirst (fun ast => !ast.isActive) f g.asteroidPool := by
  refine ⟨initAsteroid env (env.random g.randomCalls) (env.random (g.randomCalls + 1))
    (env.random (g.randomCalls + 2)) (env.random (g.randomCalls + 3))
    (env.random (g.randomCalls + 4)) (env.random (g.randomCalls + 5))
    (env.random (g.randomCalls + 6)), ?_⟩
  unfold spawnAsteroid
  split
  · rfl
  · rename_i hany
    refine (updateFirst_none _ _ _ ?_).symm
    intro x hx
    by_contra hpx
    exact hany (List.any_eq_true.mpr ⟨x, hx, by simpa using hpx⟩)

theorem spawnEnemy_asteroids (env : Env) (g : Game) :
    (spawnEnemy env g).asteroidPool = g.asteroidPool ∧
      (spawnEnemy env g).asteroidSpawnTimer = g.asteroidSpawnTimer := by
  unfold spawnEnemy
  split <;> exact ⟨rfl, rfl⟩

theorem spawnAsteroid_enemies (env : Env) (g : Game) :
    (spawnAsteroid env g).enemyPool = g.enemyPool := by
  unfold spawnAsteroid
  split <;> rfl

/-- The enemy pool in which the collision loops of a frame start. -/
theorem beforeCollisions_enemyPool (env : Env) (delta now : ℚ) (g : Game) :
    ∃ f, (beforeCollisions env delta now g).enemyPool =
      if g.enemySpawnTimer - delta ≤ 0 then updateFirst (fun en => !en.isActive) f g.enemyPool
      else g.enemyPool := by
  obtain ⟨f, hf⟩ := spawnEnemy_enemyPool env
    { updateControls delta (updateStarfield delta g) with
      enemySpawnTimer := g.enemySpawnTimer - delta
      asteroidSpawnTimer := g.asteroidSpawnTimer - delta }
  refine ⟨f, ?_⟩
  unfold beforeCollisions updateSpawners
  dsimp only
  by_cases h : g.enemySpawnTimer - delta ≤ 0
  · have h' : (updateControls delta (updateStarfield delta g)).enemySpawnTimer - delta ≤ 0 := h
    simp only [h, h', if_true]
    split
    · exact (spawnAsteroid_enemies env _).trans hf
    · exact hf
  · have h' : ¬ (updateControls delta (updateStarfield delta g)).enemySpawnTimer - delta ≤ 0 := h
    simp only [h, h', if_false]
    split
    · exact spawnAsteroid_enemies env _
    · rfl

/-- The asteroid pool in which the collision loops of a frame start. -/
theorem beforeCollisions_asteroidPool (env : Env) (delta now : ℚ) (g : Game) :
    ∃ f, (beforeCollisions env delta now g).asteroidPool =
      if g.asteroidSpawnTimer - delta ≤ 0 then
        updateFirst (fun ast => !ast.isActive) f g.asteroidPool
      else g.asteroidPool := by
  unfold beforeCollisions updateSpawners
  dsimp only
  by_cases he : (updateControls delta (updateStarfield delta g)).enemySpawnTimer - delta ≤ 0
  · simp only [he, if_true]
    by_cases h : g.asteroidSpawnTimer - delta ≤ 0
    · have h' : (spawnEnemy env
          { updateControls delta (updateStarfield delta g) with
            enemySpawnTimer :=
              (updateControls delta (updateStarfield delta g)).enemySpawnTimer - delta
            asteroidSpawnTimer :=
              (updateControls delta (updateStarfield delta g)).asteroidSpawnTimer - delta
          }).asteroidSpawnTimer ≤ 0 := by
        rw [(spawnEnemy_asteroids env _).2]
        exact h
      obtain ⟨f, hf⟩ := spawnAsteroid_asteroidPool env
        { spawnEnemy env
            { updateControls delta (updateStarfield delta g) with
              enemySpawnTimer :=
                (updateControls delta (updateStarfield delta g)).enemySpawnTimer - delta
              asteroidSpawnTimer :=
                (updateControls delta (updateStarfield delta g)).asteroidSpawnTimer - delta } with
          enemySpawnTimer := spawnInterval ((now - g.gameStartTime) / 1000) }
      refine ⟨f, ?_⟩
      simp only [h, h', if_true]
      refine hf.trans ?_
      exact congrArg _ (spawnEnemy_asteroids env _).1
    · have h' : ¬ (spawnEnemy env
          { updateControls delta (updateStarfield delta g) with
            enemySpawnTimer :=
              (updateControls delta (updateStarfield delta g)).enemySpawnTimer - delta
            asteroidSpawnTimer :=
              (updateControls delta (updateStarfield delta g)).asteroidSpawnTimer - delta
          }).asteroidSpawnTimer ≤ 0 := by
        rw [(spawnEnemy_asteroids env _).2]
        exact h
      refine ⟨id, ?_⟩
      simp only [h, h', if_false]
      exact (spawnEnemy_asteroids env _).1
  · simp only [he, if_false]
    by_cases h : g.asteroidSpawnTimer - delta ≤ 0
    · have h' : (updateControls delta (updateStarfield delta g)).asteroidSpawnTimer - delta ≤ 0 := h
      obtain ⟨f, hf⟩ := spawnAsteroid_asteroidPool env
        { updateControls delta (updateStarfield delta g) with
          enemySpawnTimer :=
            (updateControls delta (updateStarfield delta g)).enemySpawnTimer - delta
          asteroidSpawnTimer :=
            (updateControls delta (updateStarfield delta g)).asteroidSpawnTimer - delta }
      refine ⟨f, ?_⟩
      simp only [h, h', if_true]
      exact hf
    · have h' : ¬ (updateControls delta (updateStarfield delta g)).asteroidSpawnTimer - delta ≤ 0 :=
        h
      refine ⟨id, ?_⟩
      simp only [h, h', if_false]
      rfl

theorem stepEnemy_enemyProjectilePool (env : Env) (delta : ℚ) (e : Enemy) (g : Game) :
    (stepEnemy env delta e g).2.enemyProjectilePool = g.enemyProjectilePool ∨
    ∃ from_, (stepEnemy env delta e g).2.enemyProjectilePool =
      updateFirst (fun proj => !proj.isActive) (launchAt env g.playerShip.position from_)
        g.enemyProjectilePool := by
  unfold stepEnemy
  split
  · dsimp only
    repeat' split
    all_goals first | exact Or.inl rfl | exact Or.inr ⟨_, rfl⟩
  · exact Or.inl rfl

/-- A slot of `enemyProjectilePool` that was inactive is, after any enemy's callback,
either as it was or the shot `enemyFire` launched from it. -/
theorem stepEnemy_shot (env : Env) (delta : ℚ) (i : Nat) (p : Projectile) (e : Enemy)
    (g : Game)
    (h : g.enemyProjectilePool[i]? = some p ∨
      ∃ ship from_, g.enemyProjectilePool[i]? = some (launchAt env ship from_ p)) :
    (stepEnemy env delta e g).2.enemyProjectilePool[i]? = some p ∨
      ∃ ship from_, (stepEnemy env delta e g).2.enemyProjectilePool[i]? =
        some (launchAt env ship from_ p) := by
  rcases stepEnemy_enemyProjectilePool env delta e g with hsame | ⟨from_, hfire⟩
  · rw [hsame]
    exact h
  · rw [hfire]
    rcases h with h | ⟨ship, src, h⟩
    · rcases updateFirst_cases (fun proj : Projectile => !proj.isActive)
        (launchAt env g.playerShip.position from_) g.enemyProjectilePool i p h with hc | hc
      · exact Or.inl hc
      · exact Or.inr ⟨_, _, hc⟩
    · exact Or.inr ⟨ship, src, updateFirst_keeps _ _ _ i _ h rfl⟩

theorem animate_projectile_inactive (env : Env) (delta now : ℚ) (g : Game) (i : Nat)
    (p : Projectile) (hi : g.projectilePool[i]? = some p) (hp : p.isActive = false) :
    (animate env delta now g).projectilePool[i]? = some p := by
  unfold animate
  split
  · rw [(asteroidFrame_pools (updateAsteroids_frame delta _)).1]
    unfold beforeAsteroids
    rw [(enemyFrame_pools (updateEnemies_frame env delta _)).1,
      (enemyProjectileFrame_pools (updateEnemyProjectiles_frame delta _)).1]
    have h0 : (beforeCollisions env delta now g).projectilePool[i]? = some p := by
      rw [(spawnFrame_pools (beforeCollisions_frame env delta now g)).1]
      exact hi
    exact forEach_keeps (stepProjectile delta) _ _ i p h0 (stepProjectile_inactive delta p hp)
  · exact hi

theorem animate_enemyProjectile_inactive (env : Env) (delta now : ℚ) (g : Game) (i : Nat)
    (p : Projectile) (hi : g.enemyProjectilePool[i]? = some p) (hp : p.isActive = false) :
    (animate env delta now g).enemyProjectilePool[i]? = some p ∨
      ∃ ship from_, (animate env delta now g).enemyProjectilePool[i]? =
        some (launchAt env ship from_ p) := by
  unfold animate
  split
  · rw [(asteroidFrame_pools (updateAsteroids_frame delta _)).2.1]
    unfold beforeAsteroids
    have h0 : (updateProjectiles delta
        (beforeCollisions env delta now g)).enemyProjectilePool[i]? = some p := by
      rw [projectileFrame_pools (updateProjectiles_frame delta _),
        (spawnFrame_pools (beforeCollisions_frame env delta now g)).2]
      exact hi
    have h1 : (updateEnemyProjectiles delta (updateProjectiles delta
        (beforeCollisions env delta now g))).enemyProjectilePool[i]? = some p :=
      forEach_keeps (stepEnemyProjectile delta) _ _ i p h0
        (stepEnemyProjectile_inactive delta p hp)
    exact forEach_inv (stepEnemy env delta)
      (fun s => s.enemyProjectilePool[i]? = some p ∨
        ∃ ship from_, s.enemyProjectilePool[i]? = some (launchAt env ship from_ p))
      (fun e s hs => stepEnemy_shot env delta i p e s hs) _ _ (Or.inl h1)
  · exact Or.inl hi

theorem animate_enemy_inactive (env : Env) (delta now : ℚ) (g : Game) (i : Nat) (e : Enemy)
    (hi : g.enemyPool[i]? = some e) (he : e.isActive = false)
    (hns : ¬ (g.enemySpawnTimer - delta ≤ 0 ∧
      ∀ (j : Nat) (e' : Enemy), j < i → g.enemyPool[j]? = some e' → e'.isActive = true)) :
    (animate env delta now g).enemyPool[i]? = some e := by
  unfold animate
  split
  · rw [(asteroidFrame_pools (updateAsteroids_frame delta _)).2.2.1]
    unfold beforeAsteroids
    have h0 : (beforeCollisions env delta now g).enemyPool[i]? = some e := by
      obtain ⟨f, hf⟩ := beforeCollisions_enemyPool env delta now g
      rw [hf]
      by_cases ht : g.enemySpawnTimer - delta ≤ 0
      · simp only [ht, if_true]
        have hex : ∃ (j : Nat) (e' : Enemy), j < i ∧ g.enemyPool[j]? = some e' ∧
            e'.isActive = false := by
          by_contra hcon
          refine hns ⟨ht, ?_⟩
          intro j e' hj hje
          by_contra hact
          exact hcon ⟨j, e', hj, hje, by simpa using hact⟩
        obtain ⟨j, e', hj, hje, hinact⟩ := hex
        exact updateFirst_later _ _ _ i j e e' hi hj hje (by simp [hinact])
      · simp only [ht, if_false]
        exact hi
    have h1 := updateProjectiles_enemy_inactive delta _ i e h0 he
    have h2 : (updateEnemyProjectiles delta (updateProjectiles delta
        (beforeCollisions env delta now g))).enemyPool[i]? = some e := by
      rw [(enemyProjectileFrame_pools (updateEnemyProjectiles_frame delta _)).2.1]
      exact h1
    exact forEach_keeps (stepEnemy env delta) _ _ i e h2 (stepEnemy_inactive env delta e he)
  · exact hi

theorem animate_asteroid_inactive (env : Env) (delta now : ℚ) (g : Game) (i : Nat)
    (a : Asteroid) (hi : g.asteroidPool[i]? = some a) (ha : a.isActive = false)
    (hns : ¬ (g.asteroidSpawnTimer - delta ≤ 0 ∧
      ∀ (j : Nat) (a' : Asteroid), j < i → g.asteroidPool[j]? = some a' → a'.isActive = true)) :
    (animate env delta now g).asteroidPool[i]? = some a := by
  unfold animate
  split
  · have h0 : (beforeCollisions env delta now g).asteroidPool[i]? = some a := by
      obtain ⟨f, hf⟩ := beforeCollisions_asteroidPool env delta now g
      rw [hf]
      by_cases ht : g.asteroidSpawnTimer - delta ≤ 0
      · simp only [ht, if_true]
        have hex : ∃ (j : Nat) (a' : Asteroid), j < i ∧ g.asteroidPool[j]? = some a' ∧
            a'.isActive = false := by
          by_contra hcon
          refine hns ⟨ht, ?_⟩
          intro j a' hj hja
          by_contra hact
          exact hcon ⟨j, a', hj, hja, by simpa using hact⟩
        obtain ⟨j, a', hj, hja, hinact⟩ := hex
        exact updateFirst_later _ _ _ i j a a' hi hj hja (by simp [hinact])
      · simp only [ht, if_false]
        exact hi
    have h1 := updateProjectiles_asteroid_inactive delta _ i a h0 ha
    have h3 : (beforeAsteroids env delta now g).asteroidPool[i]? = some a := by
      unfold beforeAsteroids
      rw [(enemyFrame_pools (updateEnemies_frame env delta _)).2,
        (enemyProjectileFrame_pools (updateEnemyProjectiles_frame delta _)).2.2.1]
      exact h1
    exact forEach_keeps (stepAsteroid delta) _ _ i a h3 (stepAsteroid_inactive delta a ha)
  · exact hi

/-- C8: a frame leaves every pooled entity that is inactive when the frame starts
exactly as it was (position and rotation included), unless it is the slot activated
in that frame: the first inactive slot of `enemyPool` / `asteroidPool` when the
corresponding spawn timer runs out, or a slot of `enemyProjectilePool` that
`enemyFire` launched (which then holds the launched shot).  Player projectiles are
never activated by a frame. -/
theorem animate_inactive_untouched (env : Env) (delta now : ℚ) (g : Game) :
    (∀ (i : Nat) (p : Projectile), g.projectilePool[i]? = some p → p.isActive = false →
      (animate env delta now g).projectilePool[i]? = some p) ∧
    (∀ (i : Nat) (p : Projectile), g.enemyProjectilePool[i]? = some p → p.isActive = false →
      (animate env delta now g).enemyProjectilePool[i]? = some p ∨
        ∃ ship from_, (animate env delta now g).enemyProjectilePool[i]? =
          some (launchAt env ship from_ p)) ∧
    (∀ (i : Nat) (e : Enemy), g.enemyPool[i]? = some e → e.isActive = false →
      ¬ (g.enemySpawnTimer - delta ≤ 0 ∧
        ∀ (j : Nat) (e' : Enemy), j < i → g.enemyPool[j]? = some e' → e'.isActive = true) →
      (animate env delta now g).enemyPool[i]? = some e) ∧
    (∀ (i : Nat) (a : Asteroid), g.asteroidPool[i]? = some a → a.isActive = false →
      ¬ (g.asteroidSpawnTimer - delta ≤ 0 ∧
        ∀ (j : Nat) (a' : Asteroid), j < i → g.asteroidPool[j]? = some a' →
          a'.isActive = true) →
      (animate env delta now g).asteroidPool[i]? = some a) :=
  ⟨animate_projectile_inactive env delta now g, animate_enemyProjectile_inactive env delta now g,
    animate_enemy_inactive env delta now g, animate_asteroid_inactive env delta now g⟩

/-! ## The projectile loop: who is hit -/

theorem enemyHit_release (q : Projectile) (e : Enemy) : enemyHit q.release e = false := by
  simp [enemyHit, Projectile.release]

theorem asteroidHit_release (q : Projectile) (a : Asteroid) : asteroidHit q.release a = false := by
  simp [asteroidHit, Projectile.release]

theorem enemyHit_released (q : Projectile) (e : Enemy) : enemyHit q e.release = false := by
  simp [enemyHit, Enemy.release]

/-- A projectile that passes the test with no enemy leaves the enemy loop as it
found it. -/
theorem forEach_hitEnemy_miss (es : List Enemy) (st : Shot)
    (h : ∀ e ∈ es, enemyHit st.p e = false) : forEach hitEnemy es st = (es, st) := by
  induction es with
  | nil => rfl
  | cons y ys ih =>
    have hy : enemyHit st.p y = false := h y (List.mem_cons_self y ys)
    have hstep : hitEnemy y st = (y, st) := by simp [hitEnemy, hy]
    simp only [forEach, hstep]
    rw [ih (fun e he => h e (List.mem_cons_of_mem y he))]

theorem forEach_hitAsteroid_miss (as : List Asteroid) (st : Shot)
    (h : ∀ a ∈ as, asteroidHit st.p a = false) : forEach hitAsteroid as st = (as, st) := by
  induction as with
  | nil => rfl
  | cons y ys ih =>
    have hy : asteroidHit st.p y = false := h y (List.mem_cons_self y ys)
    have hstep : hitAsteroid y st = (y, st) := by simp [hitAsteroid, hy]
    simp only [forEach, hstep]
    rw [ih (fun a ha => h a (List.mem_cons_of_mem y ha))]

/-- The enemy loop for a projectile whose first hit in pool order is the enemy of
slot `j`: that enemy and the projectile are released, 10 points are scored, and no
other enemy changes. -/
theorem forEach_hitEnemy_first (es : List Enemy) (st : Shot) (j : Nat) (e : Enemy)
    (hj : es[j]? = some e) (hhit : enemyHit st.p e = true)
    (hfirst : ∀ e' ∈ es.take j, enemyHit st.p e' = false) :
    forEach hitEnemy es st =
      (es.set j e.release,
        { p := st.p.release, score := st.score + 10, scoreEl := st.score + 10 }) := by
  induction es generalizing j with
  | nil => simp at hj
  | cons y ys ih =>
    cases j with
    | zero =>
      simp only [List.getElem?_cons_zero, Option.some.injEq] at hj
      subst hj
      have hstep : hitEnemy y st =
          (y.release, { p := st.p.release, score := st.score + 10, scoreEl := st.score + 10 }) := by
        simp [hitEnemy, hhit]
      simp only [forEach, hstep, List.set_cons_zero]
      rw [forEach_hitEnemy_miss ys _ (fun e' _ => enemyHit_release st.p e')]
    | succ j =>
      simp only [List.getElem?_cons_succ] at hj
      have hy : enemyHit st.p y = false := hfirst y (by simp)
      have hstep : hitEnemy y st = (y, st) := by simp [hitEnemy, hy]
      simp only [forEach, hstep, List.set_cons_succ]
      rw [ih j hj (fun e' he' => hfirst e' (by simp [he']))]

theorem missesAll_enemies {q : Projectile} {g : Game} (h : missesAll q g = true) :
    ∀ e ∈ g.enemyPool, enemyHit q e = false := by
  intro e he
  simp only [missesAll, Bool.and_eq_true, List.all_eq_true] at h
  simpa using h.1 e he

theorem missesAll_asteroids {q : Projectile} {g : Game} (h : missesAll q g = true) :
    ∀ a ∈ g.asteroidPool, asteroidHit q a = false := by
  intro a ha
  simp only [missesAll, Bool.and_eq_true, List.all_eq_true] at h
  simpa using h.2 a ha

/-- A projectile that hits nothing before an enemy is destroyed hits nothing after. -/
theorem missesAll_enemyDestroyed {q : Projectile} {g : Game} (j : Nat) (e : Enemy)
    (h : missesAll q g = true) : missesAll q (enemyDestroyed g j e) = true := by
  have he := missesAll_enemies h
  have ha := missesAll_asteroids h
  simp only [missesAll, Bool.and_eq_true, List.all_eq_true, enemyDestroyed]
  refine ⟨?_, ?_⟩
  · intro x hx
    rcases List.mem_or_eq_of_mem_set hx with hmem | heq
    · simp [he x hmem]
    · rw [heq]
      simp [enemyHit_released]
  · intro x hx
    simp [ha x hx]

/-- The callback of the projectile loop for a projectile that hits nothing. -/
theorem stepProjectile_miss (delta : ℚ) (p : Projectile) (g : Game)
    (h : p.isActive = true → missesAll (moveProjectile delta p) g = true) :
    (stepProjectile delta p g).2 = g := by
  unfold stepProjectile
  split
  · rename_i hp
    have hm := h hp
    dsimp only
    rw [forEach_hitEnemy_miss g.enemyPool _ (missesAll_enemies hm)]
    dsimp only
    rw [forEach_hitAsteroid_miss g.asteroidPool _ (missesAll_asteroids hm)]
  · rfl

/-- The callback of the projectile loop for a projectile whose first hit is the
enemy of slot `j`. -/
theorem stepProjectile_hit (delta : ℚ) (p : Projectile) (g : Game) (j : Nat) (e : Enemy)
    (hp : p.isActive = true) (hj : g.enemyPool[j]? = some e)
    (hhit : enemyHit (moveProjectile delta p) e = true)
    (hfirst : ∀ e' ∈ g.enemyPool.take j, enemyHit (moveProjectile delta p) e' = false) :
    stepProjectile delta p g = ((moveProjectile delta p).release, enemyDestroyed g j e) := by
  unfold stepProjectile
  simp only [hp, if_true]
  rw [forEach_hitEnemy_first g.enemyPool ⟨moveProjectile delta p, g.score, g.scoreEl⟩ j e hj hhit
    hfirst]
  dsimp only
  rw [forEach_hitAsteroid_miss g.asteroidPool _ (fun a _ => asteroidHit_release _ a)]
  rfl

/-- A projectile loop in which no projectile hits anything leaves the globals alone. -/
theorem forEach_stepProjectile_miss (delta : ℚ) (ps : List Projectile) (g : Game)
    (h : ∀ p' ∈ ps, p'.isActive = true → missesAll (moveProjectile delta p') g = true) :
    (forEach (stepProjectile delta) ps g).2 = g := by
  rw [forEach_fixed (stepProjectile delta) ps g
    (fun x hx => stepProjectile_miss delta x g (h x hx))]

/-- The projectile loop when the projectile of slot `i` hits the enemy of slot `j`
first and every other projectile hits nothing. -/
theorem forEach_stepProjectile_hit (delta : ℚ) (ps : List Projectile) (g : Game) (i j : Nat)
    (p : Projectile) (e : Enemy) (hi : ps[i]? = some p) (hp : p.isActive = true)
    (hj : g.enemyPool[j]? = some e) (hhit : enemyHit (moveProjectile delta p) e = true)
    (hfirst : ∀ e' ∈ g.enemyPool.take j, enemyHit (moveProjectile delta p) e' = false)
    (hothers : ∀ p' ∈ ps.eraseIdx i, p'.isActive = true →
      missesAll (moveProjectile delta p') g = true) :
    (forEach (stepProjectile delta) ps g).2 = enemyDestroyed g j e ∧
      (forEach (stepProjectile delta) ps g).1[i]? = some (moveProjectile delta p).release := by
  induction ps generalizing i with
  | nil => simp at hi
  | cons x xs ih =>
    cases i with
    | zero =>
      simp only [List.getElem?_cons_zero, Option.some.injEq] at hi
      subst hi
      simp only [List.eraseIdx_cons_zero] at hothers
      simp only [forEach, stepProjectile_hit delta x g j e hp hj hhit hfirst,
        List.getElem?_cons_zero, and_true]
      exact forEach_stepProjectile_miss delta xs _
        (fun p' hp' hact => missesAll_enemyDestroyed j e (hothers p' hp' hact))
    | succ i =>
      simp only [List.getElem?_cons_succ] at hi
      simp only [List.eraseIdx_cons_succ] at hothers
      have hx : (stepProjectile delta x g).2 = g :=
        stepProjectile_miss delta x g (hothers x (List.mem_cons_self x _))
      simp only [forEach, hx, List.getElem?_cons_succ]
      exact ih i hi (fun p' hp' => hothers p' (List.mem_cons_of_mem x hp'))

/-! ## A projectile hit within a frame -/

theorem mem_eraseIdx_of_mem_take {α : Type} (l : List α) (j : Nat) (x : α)
    (h : x ∈ l.take j) : x ∈ l.eraseIdx j := by
  rw [List.eraseIdx_eq_take_drop_succ]
  exact List.mem_append_left _ h

/-- A frame of a running game in which the projectile of slot `i` is still active after
its movement and the first enemy it passes the test with is the one of slot `j`,
while every other projectile hits nothing. -/
theorem animate_first_hit (env : Env) (delta now : ℚ) (g : Game) (i j : Nat)
    (p : Projectile) (e : Enemy)
    (hrun : g.isGameOver = false) (hctl : g.controlsEnabled = true)
    (hi : g.projectilePool[i]? = some p) (hp : p.isActive = true)
    (hj : (beforeCollisions env delta now g).enemyPool[j]? = some e)
    (hhit : enemyHit (moveProjectile delta p) e = true)
    (hfirst : ∀ e' ∈ (beforeCollisions env delta now g).enemyPool.take j,
      enemyHit (moveProjectile delta p) e' = false)
    (hothers : ∀ p' ∈ g.projectilePool.eraseIdx i, p'.isActive = true →
      missesAll (moveProjectile delta p') (beforeCollisions env delta now g) = true) :
    (animate env delta now g).score = g.score + 10 ∧
    (animate env delta now g).projectilePool[i]? = some (moveProjectile delta p).release ∧
    (animate env delta now g).enemyPool[j]? = some e.release ∧
    (∀ k, k ≠ j →
      (updateProjectiles delta (beforeCollisions env delta now g)).enemyPool[k]? =
        (beforeCollisions env delta now g).enemyPool[k]?) ∧
    (updateProjectiles delta (beforeCollisions env delta now g)).asteroidPool =
      (beforeCollisions env delta now g).asteroidPool := by
  have hB := beforeCollisions_frame env delta now g
  have hpool : (beforeCollisions env delta now g).projectilePool = g.projectilePool :=
    (spawnFrame_pools hB).1
  have hscore : (beforeCollisions env delta now g).score = g.score :=
    (spawnFrame_session hB).2.2
  have H := forEach_stepProjectile_hit delta (beforeCollisions env delta now g).projectilePool
    (beforeCollisions env delta now g) i j p e (by rw [hpool]; exact hi) hp hj hhit hfirst
    (by rw [hpool]; exact hothers)
  have hjlt : j < (beforeCollisions env delta now g).enemyPool.length := by
    rcases Nat.lt_or_ge j (beforeCollisions env delta now g).enemyPool.length with h | h
    · exact h
    · rw [List.getElem?_eq_none_iff.mpr h] at hj
      exact absurd hj (by simp)
  have h1score : (updateProjectiles delta (beforeCollisions env delta now g)).score =
      g.score + 10 := by
    have := congrArg Game.score H.1
    rw [← hscore]
    exact this
  have h1enemies : (updateProjectiles delta (beforeCollisions env delta now g)).enemyPool =
      (beforeCollisions env delta now g).enemyPool.set j e.release := by
    have := congrArg Game.enemyPool H.1
    exact this
  have h1asteroids : (updateProjectiles delta (beforeCollisions env delta now g)).asteroidPool =
      (beforeCollisions env delta now g).asteroidPool := by
    have := congrArg Game.asteroidPool H.1
    exact this
  have h1shot : (updateProjectiles delta (beforeCollisions env delta now g)).projectilePool[i]? =
      some (moveProjectile delta p).release := H.2
  have f2 := enemyProjectileFrame_pools (updateEnemyProjectiles_frame delta
    (updateProjectiles delta (beforeCollisions env delta now g)))
  have f3 := updateEnemies_frame env delta (updateEnemyProjectiles delta
    (updateProjectiles delta (beforeCollisions env delta now g)))
  have f4 := asteroidFrame_pools (updateAsteroids_frame delta (beforeAsteroids env delta now g))
  have hanim : animate env delta now g =
      updateAsteroids delta (beforeAsteroids env delta now g) := by
    simp [animate, hrun, hctl]
  have h2enemy : (updateEnemyProjectiles delta (updateProjectiles delta
      (beforeCollisions env delta now g))).enemyPool[j]? = some e.release := by
    rw [f2.2.1, h1enemies]
    exact List.getElem?_set_self hjlt
  have h3enemy : (beforeAsteroids env delta now g).enemyPool[j]? = some e.release :=
    forEach_keeps (stepEnemy env delta) _ _ j e.release h2enemy
      (stepEnemy_inactive env delta e.release rfl)
  refine ⟨?_, ?_, ?_, ?_, h1asteroids⟩
  · rw [hanim, f4.2.2.2]
    unfold beforeAsteroids
    rw [(enemyFrame_session f3).2.2, f2.2.2.2]
    exact h1score
  · rw [hanim, f4.1]
    unfold beforeAsteroids
    rw [(enemyFrame_pools f3).1, f2.1]
    exact h1shot
  · rw [hanim, f4.2.2.1]
    exact h3enemy
  · intro k hk
    rw [h1enemies]
    exact List.getElem?_set_ne (fun h => hk h.symm)

theorem mem_eraseIdx_or_getElem {α : Type} (l : List α) (j : Nat) (x : α) (h : x ∈ l) :
    x ∈ l.eraseIdx j ∨ l[j]? = some x := by
  induction l generalizing j with
  | nil => simp at h
  | cons y ys ih =>
    cases j with
    | zero =>
      rcases List.mem_cons.mp h with hxy | hmem
      · right
        simp [hxy]
      · left
        simpa using hmem
    | succ j =>
      rcases List.mem_cons.mp h with hxy | hmem
      · left
        simp [hxy]
      · rcases ih j hmem with hin | hget
        · left
          simp [hin]
        · right
          simpa using hget

/-- At distance 4 or more the projectile-vs-enemy test fails. -/
theorem enemyHit_far (q : Projectile) (e : Enemy)
    (h : 4 * 4 ≤ distanceToSquared q.position e.position) : enemyHit q e = false := by
  have hn : ¬ distanceToSquared q.position e.position < 4 * 4 := not_lt.mpr h
  simp [enemyHit, distanceLt, hn]

/-- The callback of the projectile loop returns a projectile that hits nothing just
moved. -/
theorem stepProjectile_miss_fst (delta : ℚ) (p : Projectile) (g : Game)
    (hp : p.isActive = true) (hm : missesAll (moveProjectile delta p) g = true) :
    (stepProjectile delta p g).1 = moveProjectile delta p := by
  unfold stepProjectile
  simp only [hp, if_true]
  rw [forEach_hitEnemy_miss g.enemyPool _ (missesAll_enemies hm)]
  dsimp only
  rw [forEach_hitAsteroid_miss g.asteroidPool _ (missesAll_asteroids hm)]

/-- A frame of a running game in which no projectile hits anything: the projectile
loop leaves the enemies, the asteroids and the score as it found them, and at the
end of the frame the score is the one the frame started with and the active
projectile of slot `i` has just moved. -/
theorem animate_no_hit (env : Env) (delta now : ℚ) (g : Game) (i : Nat) (p : Projectile)
    (hrun : g.isGameOver = false) (hctl : g.controlsEnabled = true)
    (hi : g.projectilePool[i]? = some p) (hp : p.isActive = true)
    (hall : ∀ p' ∈ g.projectilePool, p'.isActive = true →
      missesAll (moveProjectile delta p') (beforeCollisions env delta now g) = true) :
    (animate env delta now g).score = g.score ∧
    (animate env delta now g).projectilePool[i]? = some (moveProjectile delta p) ∧
    (updateProjectiles delta (beforeCollisions env delta now g)).enemyPool =
      (beforeCollisions env delta now g).enemyPool ∧
    (updateProjectiles delta (beforeCollisions env delta now g)).asteroidPool =
      (beforeCollisions env delta now g).asteroidPool := by
  have hB := beforeCollisions_frame env delta now g
  have hpool : (beforeCollisions env delta now g).projectilePool = g.projectilePool :=
    (spawnFrame_pools hB).1
  have hscore : (beforeCollisions env delta now g).score = g.score :=
    (spawnFrame_session hB).2.2
  have hfix := forEach_fixed (stepProjectile delta)
    (beforeCollisions env delta now g).projectilePool (beforeCollisions env delta now g)
    (fun x hx => stepProjectile_miss delta x _ (hall x (by rw [← hpool]; exact hx)))
  have h1 : updateProjectiles delta (beforeCollisions env delta now g) =
      { beforeCollisions env delta now g with
        projectilePool := (beforeCollisions env delta now g).projectilePool.map
          (fun x => (stepProjectile delta x (beforeCollisions env delta now g)).1) } := by
    unfold updateProjectiles
    rw [hfix]
  have h1shot : (updateProjectiles delta (beforeCollisions env delta now g)).projectilePool[i]? =
      some (moveProjectile delta p) := by
    rw [h1]
    show ((beforeCollisions env delta now g).projectilePool.map
      (fun x => (stepProjectile delta x (beforeCollisions env delta now g)).1))[i]? = _
    rw [List.getElem?_map, hpool, hi]
    show some (stepProjectile delta p (beforeCollisions env delta now g)).1 = _
    rw [stepProjectile_miss_fst delta p _ hp (hall p (List.getElem?_mem hi) hp)]
  have f2 := enemyProjectileFrame_pools (updateEnemyProjectiles_frame delta
    (updateProjectiles delta (beforeCollisions env delta now g)))
  have f3 := updateEnemies_frame env delta (updateEnemyProjectiles delta
    (updateProjectiles delta (beforeCollisions env delta now g)))
  have f4 := asteroidFrame_pools (updateAsteroids_frame delta (beforeAsteroids env delta now g))
  have hanim : animate env delta now g =
      updateAsteroids delta (beforeAsteroids env delta now g) := by
    simp [animate, hrun, hctl]
  refine ⟨?_, ?_, ?_, ?_⟩
  · rw [hanim, f4.2.2.2]
    unfold beforeAsteroids
    rw [(enemyFrame_session f3).2.2, f2.2.2.2, h1]
    exact hscore
  · rw [hanim, f4.1]
    unfold beforeAsteroids
    rw [(enemyFrame_pools f3).1, f2.1]
    exact h1shot
  · rw [h1]
  · rw [h1]

/-- C5 (amended): in a running game, take a frame whose collision check compares an
active player projectile (still active after its movement) with an active enemy,
with no other enemy within range of that projectile and no other projectile hitting
anything.  If the two are at distance strictly less than 4, the frame releases both
the enemy and the projectile and the score grows by exactly 10.  If they are at
distance 4 or more (exactly 4 included) and the projectile is within range of no
asteroid either, nothing happens to them: the projectile loop leaves the enemy pool
and the asteroid pool as it found them, and at the end of the frame the projectile
is still active, just moved, and the score is unchanged. -/
theorem animate_hit_scores (env : Env) (delta now : ℚ) (g : Game) (i j : Nat)
    (p : Projectile) (e : Enemy)
    (hrun : g.isGameOver = false) (hctl : g.controlsEnabled = true)
    (hi : g.projectilePool[i]? = some p) (hp : p.isActive = true)
    (hq : (moveProjectile delta p).isActive = true)
    (hj : (beforeCollisions env delta now g).enemyPool[j]? = some e) (he : e.isActive = true)
    (hotherE : ∀ e' ∈ (beforeCollisions env delta now g).enemyPool.eraseIdx j,
      enemyHit (moveProjectile delta p) e' = false)
    (hotherP : ∀ p' ∈ g.projectilePool.eraseIdx i, p'.isActive = true →
      missesAll (moveProjectile delta p') (beforeCollisions env delta now g) = true) :
    (distanceLt (moveProjectile delta p).position e.position 4 = true →
      (animate env delta now g).score = g.score + 10 ∧
      (animate env delta now g).projectilePool[i]? = some (moveProjectile delta p).release ∧
      (moveProjectile delta p).release.isActive = false ∧
      (animate env delta now g).enemyPool[j]? = some e.release ∧
      e.release.isActive = false) ∧
    (4 * 4 ≤ distanceToSquared (moveProjectile delta p).position e.position →
      (∀ a ∈ (beforeCollisions env delta now g).asteroidPool,
        asteroidHit (moveProjectile delta p) a = false) →
      (animate env delta now g).score = g.score ∧
      (animate env delta now g).projectilePool[i]? = some (moveProjectile delta p) ∧
      (updateProjectiles delta (beforeCollisions env delta now g)).enemyPool =
        (beforeCollisions env delta now g).enemyPool ∧
      (updateProjectiles delta (beforeCollisions env delta now g)).asteroidPool =
        (beforeCollisions env delta now g).asteroidPool) := by
  refine ⟨?_, ?_⟩
  · intro hdist
    have h := animate_first_hit env delta now g i j p e hrun hctl hi hp hj
      (by simp [enemyHit, he, hq, hdist])
      (fun e' he' => hotherE e' (mem_eraseIdx_of_mem_take _ j e' he')) hotherP
    exact ⟨h.1, h.2.1, rfl, h.2.2.1, rfl⟩
  · intro hfar hast
    have hmiss : missesAll (moveProjectile delta p) (beforeCollisions env delta now g) = true := by
      simp only [missesAll, Bool.and_eq_true, List.all_eq_true]
      refine ⟨?_, ?_⟩
      · intro x hx
        rcases mem_eraseIdx_or_getElem _ j x hx with hin | hget
        · simp [hotherE x hin]
        · rw [hj] at hget
          have hxe : e = x := Option.some.inj hget
          rw [← hxe]
          simp [enemyHit_far _ e hfar]
      · intro x hx
        simp [hast x hx]
    refine animate_no_hit env delta now g i p hrun hctl hi hp ?_
    intro p' hp' hact
    rcases mem_eraseIdx_or_getElem _ i p' hp' with hin | hget
    · exact hotherP p' hin hact
    · rw [hi] at hget
      have hpp : p = p' := Option.some.inj hget
      rw [← hpp]
      exact hmiss

/-- C9 (amended): in a running game, a projectile that after its movement is within
range of several targets at once destroys only the first enemy in pool order that
it is in range of: the frame releases that enemy and the projectile and (no other
projectile hitting anything) the score grows by 10 only, while the projectile loop
leaves every other enemy and every asteroid exactly as it found them, a second
target in range included. -/
theorem animate_first_target_only (env : Env) (delta now : ℚ) (g : Game) (i j : Nat)
    (p : Projectile) (e : Enemy)
    (hrun : g.isGameOver = false) (hctl : g.controlsEnabled = true)
    (hi : g.projectilePool[i]? = some p) (hp : p.isActive = true)
    (hq : (moveProjectile delta p).isActive = true)
    (hj : (beforeCollisions env delta now g).enemyPool[j]? = some e) (he : e.isActive = true)
    (hdist : distanceLt (moveProjectile delta p).position e.position 4 = true)
    (hfirst : ∀ e' ∈ (beforeCollisions env delta now g).enemyPool.take j,
      enemyHit (moveProjectile delta p) e' = false)
    (hotherP : ∀ p' ∈ g.projectilePool.eraseIdx i, p'.isActive = true →
      missesAll (moveProjectile delta p') (beforeCollisions env delta now g) = true) :
    (animate env delta now g).score = g.score + 10 ∧
    (animate env delta now g).projectilePool[i]? = some (moveProjectile delta p).release ∧
    (animate env delta now g).enemyPool[j]? = some e.release ∧
    (∀ k, k ≠ j →
      (updateProjectiles delta (beforeCollisions env delta now g)).enemyPool[k]? =
        (beforeCollisions env delta now g).enemyPool[k]?) ∧
    (updateProjectiles delta (beforeCollisions env delta now g)).asteroidPool =
      (beforeCollisions env delta now g).asteroidPool :=
  animate_first_hit env delta now g i j p e hrun hctl hi hp hj
    (by simp [enemyHit, he, hq, hdist]) hfirst hotherP

/-! ## The collision theorems on sample frames -/

set_option maxRecDepth 100000 in
/-- The frame of `duelGame (-784)` with `delta = 1/100`: the projectile ends its
movement at distance exactly 4 from the enemy spawned in that frame, nothing else is
active, and after the frame both are still active and the score is unchanged. -/
theorem duel_at_distance_four :
    (duelGame (-784)).isGameOver = false ∧ (duelGame (-784)).controlsEnabled = true ∧
    (duelGame (-784)).projectilePool[0]? = some (duelShot (-784)) ∧
    (moveProjectile (1 / 100) (duelShot (-784))).isActive = true ∧
    (beforeCollisions sampleEnv (1 / 100) 0 (duelGame (-784))).enemyPool[0]? = some duelEnemy ∧
    duelEnemy.isActive = true ∧
    distanceToSquared (moveProjectile (1 / 100) (duelShot (-784))).position duelEnemy.position
      = 4 * 4 ∧
    (∀ e' ∈ (beforeCollisions sampleEnv (1 / 100) 0 (duelGame (-784))).enemyPool.eraseIdx 0,
      e'.isActive = false) ∧
    (∀ a ∈ (beforeCollisions sampleEnv (1 / 100) 0 (duelGame (-784))).asteroidPool,
      a.isActive = false) ∧
    (∀ p' ∈ (duelGame (-784)).projectilePool.eraseIdx 0, p'.isActive = false) ∧
    (∀ p' ∈ (duelGame (-784)).enemyProjectilePool, p'.isActive = false) ∧
    (animate sampleEnv (1 / 100) 0 (duelGame (-784))).score = (duelGame (-784)).score ∧
    ((animate sampleEnv (1 / 100) 0 (duelGame (-784))).projectilePool[0]?).map
      (fun q => q.isActive) = some true ∧
    ((animate sampleEnv (1 / 100) 0 (duelGame (-784))).enemyPool[0]?).map
      (fun e' => e'.isActive) = some true := by
  decide!

set_option maxRecDepth 100000 in
/-- Both halves on sample frames with `delta = 1/100`.  In `duelGame (-785)` the
projectile ends its movement at distance 3 from the enemy spawned in that frame and
both are released; in `duelGame (-784)` it ends at distance exactly 4 and nothing
happens. -/
theorem animate_hit_scores_witness :
    (distanceLt (moveProjectile (1 / 100) (duelShot (-785))).position duelEnemy.position 4
      = true ∧
    (animate sampleEnv (1 / 100) 0 (duelGame (-785))).score = (duelGame (-785)).score + 10 ∧
    (animate sampleEnv (1 / 100) 0 (duelGame (-785))).projectilePool[0]? =
      some (moveProjectile (1 / 100) (duelShot (-785))).release ∧
    (moveProjectile (1 / 100) (duelShot (-785))).release.isActive = false ∧
    (animate sampleEnv (1 / 100) 0 (duelGame (-785))).enemyPool[0]? = some duelEnemy.release ∧
    duelEnemy.release.isActive = false) ∧
    (4 * 4 ≤ distanceToSquared (moveProjectile (1 / 100) (duelShot (-784))).position
      duelEnemy.position ∧
    (animate sampleEnv (1 / 100) 0 (duelGame (-784))).score = (duelGame (-784)).score ∧
    (animate sampleEnv (1 / 100) 0 (duelGame (-784))).projectilePool[0]? =
      some (moveProjectile (1 / 100) (duelShot (-784))) ∧
    (updateProjectiles (1 / 100)
      (beforeCollisions sampleEnv (1 / 100) 0 (duelGame (-784)))).enemyPool =
      (beforeCollisions sampleEnv (1 / 100) 0 (duelGame (-784))).enemyPool ∧
    (updateProjectiles (1 / 100)
      (beforeCollisions sampleEnv (1 / 100) 0 (duelGame (-784)))).asteroidPool =
      (beforeCollisions sampleEnv (1 / 100) 0 (duelGame (-784))).asteroidPool) :=
  have h := animate_hit_scores sampleEnv (1 / 100) 0 (duelGame (-785)) 0 0 (duelShot (-785))
    duelEnemy (by decide!) (by decide!) (by decide!) (by decide!) (by decide!) (by decide!)
    (by decide!) (by decide!) (by decide!)
  have h4 := animate_hit_scores sampleEnv (1 / 100) 0 (duelGame (-784)) 0 0 (duelShot (-784))
    duelEnemy (by decide!) (by decide!) (by decide!) (by decide!) (by decide!) (by decide!)
    (by decide!) (by decide!) (by decide!)
  ⟨⟨by decide!, h.1 (by decide!)⟩, ⟨by decide!, h4.2 (by decide!) (by decide!)⟩⟩

set_option maxRecDepth 100000 in
/-- The frame of `crossfireGame` with `delta = 1/100`: after its movement the
projectile is within 4 of both enemies and within the scale of the asteroid, yet the
frame releases only the enemy of slot 0; the enemy of slot 1 and the asteroid are
still active afterwards and the score has grown by 10, not by 20 or 15. -/
theorem crossfire_second_target_survives :
    crossfireGame.isGameOver = false ∧ crossfireGame.controlsEnabled = true ∧
    crossfireGame.projectilePool[0]? = some (duelShot (-785)) ∧
    (moveProjectile (1 / 100) (duelShot (-785))).isActive = true ∧
    (beforeCollisions sampleEnv (1 / 100) 0 crossfireGame).enemyPool[0]? =
      some (lineEnemy (-799)) ∧
    (beforeCollisions sampleEnv (1 / 100) 0 crossfireGame).enemyPool[1]? =
      some (lineEnemy (-800)) ∧
    (beforeCollisions sampleEnv (1 / 100) 0 crossfireGame).asteroidPool[0]? =
      some (rock ⟨0, 5, -798⟩ 3) ∧
    distanceLt (moveProjectile (1 / 100) (duelShot (-785))).position
      (lineEnemy (-799)).position 4 = true ∧
    distanceLt (moveProjectile (1 / 100) (duelShot (-785))).position
      (lineEnemy (-800)).position 4 = true ∧
    distanceLt (moveProjectile (1 / 100) (duelShot (-785))).position
      (rock ⟨0, 5, -798⟩ 3).position (rock ⟨0, 5, -798⟩ 3).scale.x = true ∧
    (animate sampleEnv (1 / 100) 0 crossfireGame).score = crossfireGame.score + 10 ∧
    ((animate sampleEnv (1 / 100) 0 crossfireGame).enemyPool[0]?).map
      (fun e' => e'.isActive) = some false ∧
    ((animate sampleEnv (1 / 100) 0 crossfireGame).enemyPool[1]?).map
      (fun e' => e'.isActive) = some true ∧
    ((animate sampleEnv (1 / 100) 0 crossfireGame).asteroidPool[0]?).map
      (fun a => a.isActive) = some true := by
  decide!

set_option maxRecDepth 100000 in
/-- The frame of `crossfireGame` with `delta = 1/100`, where the enemy of slot 0 is
the first one in range. -/
theorem animate_first_target_only_witness :
    (animate sampleEnv (1 / 100) 0 crossfireGame).score = crossfireGame.score + 10 ∧
    (animate sampleEnv (1 / 100) 0 crossfireGame).projectilePool[0]? =
      some (moveProjectile (1 / 100) (duelShot (-785))).release ∧
    (animate sampleEnv (1 / 100) 0 crossfireGame).enemyPool[0]? =
      some (lineEnemy (-799)).release ∧
    (∀ k, k ≠ 0 →
      (updateProjectiles (1 / 100)
        (beforeCollisions sampleEnv (1 / 100) 0 crossfireGame)).enemyPool[k]? =
        (beforeCollisions sampleEnv (1 / 100) 0 crossfireGame).enemyPool[k]?) ∧
    (updateProjectiles (1 / 100)
      (beforeCollisions sampleEnv (1 / 100) 0 crossfireGame)).asteroidPool =
      (beforeCollisions sampleEnv (1 / 100) 0 crossfireGame).asteroidPool :=
  animate_first_target_only sampleEnv (1 / 100) 0 crossfireGame 0 0 (duelShot (-785))
    (lineEnemy (-799))
    (by decide!) (by decide!) (by decide!) (by decide!) (by decide!) (by decide!) (by decide!)
    (by decide!) (by decide!) (by decide!)

/-! ## The asteroid loop: hits on the ship -/

theorem forEach_append {α σ : Type} (f : α → σ → α × σ) (xs ys : List α) (s : σ) :
    forEach f (xs ++ ys) s =
      ((forEach f xs s).1 ++ (forEach f ys (forEach f xs s).2).1,
        (forEach f ys (forEach f xs s).2).2) := by
  induction xs generalizing s with
  | nil => rfl
  | cons x xs ih => simp [forEach, ih]

/-- One more asteroid processed: the loop state after `k + 1` asteroids is the
callback's result on asteroid `k` in the loop state after `k`. -/
theorem asteroidLoopState_succ (delta : ℚ) (g : Game) (k : Nat) (a : Asteroid)
    (hk : g.asteroidPool[k]? = some a) :
    asteroidLoopState delta g (k + 1) = (stepAsteroid delta a (asteroidLoopState delta g k)).2 := by
  unfold asteroidLoopState
  rw [List.take_succ, hk, forEach_append]
  rfl

theorem asteroidLoopState_frame (delta : ℚ) (g : Game) (k : Nat) :
    asteroidFrame (asteroidLoopState delta g k) = asteroidFrame g :=
  forEach_field (stepAsteroid delta) asteroidFrame (stepAsteroid_frame delta) _ g

theorem asteroidFrame_ship {g g' : Game} (h : asteroidFrame g' = asteroidFrame g) :
    g'.camera = g.camera ∧ g'.playerShip = g.playerShip := by
  have a := congrArg Game.camera h
  have b := congrArg Game.playerShip h
  exact ⟨a, b⟩

theorem moveAsteroid_scale (delta cameraZ : ℚ) (a : Asteroid) :
    (moveAsteroid delta cameraZ a).scale = a.scale := by
  unfold moveAsteroid
  dsimp only
  split <;> rfl

/-- The callback of the asteroid loop on an active asteroid that, once moved, is
within `scale + 1.5` of the ship. -/
theorem stepAsteroid_hit (delta : ℚ) (a : Asteroid) (g : Game) (ha : a.isActive = true)
    (hdist : distanceLt (moveAsteroid delta g.camera.z a).position g.playerShip.position
      (a.scale.x + 1.5) = true) :
    stepAsteroid delta a g = ((moveAsteroid delta g.camera.z a).release, takeDamage 1 g) := by
  unfold stepAsteroid
  simp only [ha, if_true, moveAsteroid_scale, hdist]

theorem takeDamage_running (g : Game) (h : g.isGameOver = false) :
    (takeDamage 1 g).playerLives = g.playerLives - 1 := by
  by_cases hl : g.playerLives - 1 ≤ 0 <;> simp [takeDamage, endGame, h, hl]

/-- C6 (amended): in a running game, for every asteroid that is active when the
asteroid loop of a frame starts and whose distance to the ship after its movement
is less than its scale + 1.5, the frame releases that asteroid and its callback and
the whole asteroid loop add nothing to the score, whether or not the game is over
by then; its hit takes exactly one life (`playerLives` decreases by 1 across its
callback) if the game is not already over when the loop reaches it, and takes none
if an earlier hit of the same frame has ended the game. -/
theorem animate_asteroid_hit (env : Env) (delta now : ℚ) (g : Game) (k : Nat) (a : Asteroid)
    (hrun : g.isGameOver = false) (hctl : g.controlsEnabled = true)
    (hk : (beforeAsteroids env delta now g).asteroidPool[k]? = some a)
    (ha : a.isActive = true)
    (hdist : distanceLt
      (moveAsteroid delta (beforeAsteroids env delta now g).camera.z a).position
      (beforeAsteroids env delta now g).playerShip.position (a.scale.x + 1.5) = true) :
    (animate env delta now g).asteroidPool[k]? =
      some (moveAsteroid delta (beforeAsteroids env delta now g).camera.z a).release ∧
    (moveAsteroid delta (beforeAsteroids env delta now g).camera.z a).release.isActive = false ∧
    ((asteroidLoopState delta (beforeAsteroids env delta now g) k).isGameOver = false →
      (asteroidLoopState delta (beforeAsteroids env delta now g) (k + 1)).playerLives =
        (asteroidLoopState delta (beforeAsteroids env delta now g) k).playerLives - 1) ∧
    ((asteroidLoopState delta (beforeAsteroids env delta now g) k).isGameOver = true →
      (asteroidLoopState delta (beforeAsteroids env delta now g) (k + 1)).playerLives =
        (asteroidLoopState delta (beforeAsteroids env delta now g) k).playerLives) ∧
    (asteroidLoopState delta (beforeAsteroids env delta now g) (k + 1)).score =
      (asteroidLoopState delta (beforeAsteroids env delta now g) k).score ∧
    (animate env delta now g).score = (beforeAsteroids env delta now g).score := by
  have hanim : animate env delta now g =
      updateAsteroids delta (beforeAsteroids env delta now g) := by
    simp [animate, hrun, hctl]
  have hship := asteroidFrame_ship (asteroidLoopState_frame delta
    (beforeAsteroids env delta now g) k)
  have hstep : stepAsteroid delta a (asteroidLoopState delta (beforeAsteroids env delta now g) k) =
      ((moveAsteroid delta (beforeAsteroids env delta now g).camera.z a).release,
        takeDamage 1 (asteroidLoopState delta (beforeAsteroids env delta now g) k)) := by
    have h := stepAsteroid_hit delta a
      (asteroidLoopState delta (beforeAsteroids env delta now g) k) ha
      (by rw [hship.1, hship.2]; exact hdist)
    rw [hship.1] at h
    exact h
  have hsucc := asteroidLoopState_succ delta (beforeAsteroids env delta now g) k a hk
  rw [hstep] at hsucc
  refine ⟨?_, rfl, ?_, ?_, ?_, ?_⟩
  · rw [hanim]
    obtain ⟨t, ht, hget⟩ := forEach_getElem (stepAsteroid delta)
      (fun t => asteroidFrame t = asteroidFrame (beforeAsteroids env delta now g))
      (fun x t ht => (stepAsteroid_frame delta x t).trans ht)
      (beforeAsteroids env delta now g).asteroidPool (beforeAsteroids env delta now g) rfl k a hk
    have hs := asteroidFrame_ship ht
    have h := stepAsteroid_hit delta a t ha (by rw [hs.1, hs.2]; exact hdist)
    rw [h, hs.1] at hget
    exact hget
  · intro hlive
    rw [hsucc]
    exact takeDamage_running _ hlive
  · intro hover
    rw [hsucc]
    have hsame : takeDamage 1 (asteroidLoopState delta (beforeAsteroids env delta now g) k) =
        asteroidLoopState delta (beforeAsteroids env delta now g) k := by
      simp [takeDamage, hover]
    rw [hsame]
  · rw [hsucc]
    have := congrArg Game.score (takeDamage_frame 1
      (asteroidLoopState delta (beforeAsteroids env delta now g) k))
    exact this
  · rw [hanim]
    exact (asteroidFrame_pools (updateAsteroids_frame delta _)).2.2.2

set_option maxRecDepth 100000 in
/-- The frame of `lastLifeGame` with `delta = 1/100`: the game is running with one
life, both asteroids are active when the asteroid loop starts and, once moved, both
are within `scale + 1.5` of the ship.  The first hit takes the last life and ends
the game; across the callback of the second asteroid `playerLives` stays at 0, so
that hit applies no damage, and the frame ends with 0 lives, not -1. -/
theorem second_asteroid_no_damage :
    lastLifeGame.isGameOver = false ∧ lastLifeGame.controlsEnabled = true ∧
    lastLifeGame.playerLives = 1 ∧
    (beforeAsteroids sampleEnv (1 / 100) 0 lastLifeGame).asteroidPool[0]? =
      some (rock ⟨0, 0, -2⟩ 2) ∧
    (beforeAsteroids sampleEnv (1 / 100) 0 lastLifeGame).asteroidPool[1]? =
      some (rock ⟨1, 0, -2⟩ 2) ∧
    (rock ⟨0, 0, -2⟩ 2).isActive = true ∧ (rock ⟨1, 0, -2⟩ 2).isActive = true ∧
    distanceLt
      (moveAsteroid (1 / 100) (beforeAsteroids sampleEnv (1 / 100) 0 lastLifeGame).camera.z
        (rock ⟨0, 0, -2⟩ 2)).position
      (beforeAsteroids sampleEnv (1 / 100) 0 lastLifeGame).playerShip.position
      ((rock ⟨0, 0, -2⟩ 2).scale.x + 1.5) = true ∧
    distanceLt
      (moveAsteroid (1 / 100) (beforeAsteroids sampleEnv (1 / 100) 0 lastLifeGame).camera.z
        (rock ⟨1, 0, -2⟩ 2)).position
      (beforeAsteroids sampleEnv (1 / 100) 0 lastLifeGame).playerShip.position
      ((rock ⟨1, 0, -2⟩ 2).scale.x + 1.5) = true ∧
    (asteroidLoopState (1 / 100) (beforeAsteroids sampleEnv (1 / 100) 0 lastLifeGame) 1).playerLives
      = 0 ∧
    (asteroidLoopState (1 / 100) (beforeAsteroids sampleEnv (1 / 100) 0 lastLifeGame) 2).playerLives
      = 0 ∧
    ((animate sampleEnv (1 / 100) 0 lastLifeGame).asteroidPool[1]?).map (fun a => a.isActive)
      = some false ∧
    (animate sampleEnv (1 / 100) 0 lastLifeGame).playerLives = 0 := by
  decide!

set_option maxRecDepth 100000 in
/-- The frame of `lastLifeGame` with `delta = 1/100`, at the asteroid of slot 0: the
game is not over when the loop reaches it, and its hit takes the last life. -/
theorem animate_asteroid_hit_witness :
    (asteroidLoopState (1 / 100) (beforeAsteroids sampleEnv (1 / 100) 0 lastLifeGame)
      0).isGameOver = false ∧
    (animate sampleEnv (1 / 100) 0 lastLifeGame).asteroidPool[0]? =
      some (moveAsteroid (1 / 100) (beforeAsteroids sampleEnv (1 / 100) 0 lastLifeGame).camera.z
        (rock ⟨0, 0, -2⟩ 2)).release ∧
    (asteroidLoopState (1 / 100) (beforeAsteroids sampleEnv (1 / 100) 0 lastLifeGame)
      (0 + 1)).playerLives =
      (asteroidLoopState (1 / 100) (beforeAsteroids sampleEnv (1 / 100) 0 lastLifeGame)
        0).playerLives - 1 ∧
    (animate sampleEnv (1 / 100) 0 lastLifeGame).score =
      (beforeAsteroids sampleEnv (1 / 100) 0 lastLifeGame).score :=
  have h := animate_asteroid_hit sampleEnv (1 / 100) 0 lastLifeGame 0 (rock ⟨0, 0, -2⟩ 2)
    (by decide!) (by decide!) (by decide!) (by decide!) (by decide!)
  ⟨by decide!, h.1, h.2.2.1 (by decide!), h.2.2.2.2.2⟩

end VectorFury
